import Mathlib

/-
Verification of the chat-driven scheduling assistant.

Shallow embedding of the Python sources:
  app/api/routers/chat.py     (send_message: echo + auto-booking engine)
  app/services/chat.py        (ChatService: session store, dispatch, handlers)
  app/models/chat.py          (ChatMessage / ChatHistory / ChatRole)
  app/exceptions/base.py      (exception taxonomy)

Modelling conventions:
  * Python `datetime` values are modelled at the granularity the code
    observes: day indices (Int) plus seconds-of-day where time-of-day
    matters; ISO strings where only `.isoformat()` is used.
  * External collaborators (OpenAI completion, Cal.com REST client,
    `re.search` over free text, `datetime.fromisoformat` parsing) are
    oracle parameters: pure functions / values supplied to the embedding.
    Their results flow through the embedded control flow unchanged.
  * Python exceptions are an `Except PyExc` monad; `try/except` clauses
    become `Except` eliminations.
  * Python truthiness (`if x:`) is modelled explicitly for each type
    (None / "" / [] / {} / 0 are falsy).
-/

namespace CodeChallenge

/-! ## String helpers (Python `in`, `%02d`, `str.lower`) -/

/-- Contiguous-sublist test on character lists. -/
def charsContain (needle : List Char) : List Char → Bool
  | [] => needle.isEmpty
  | c :: t => needle.isPrefixOf (c :: t) || charsContain needle t

/-- Python `needle in hay` on strings: substring containment. -/
def strContains (hay needle : String) : Bool :=
  charsContain needle.toList hay.toList

/-- Python `f"{n:02d}"` for a natural number. -/
def pad2 (n : Nat) : String :=
  if n < 10 then "0" ++ toString n else toString n

/-- Python `str.lower()`, modelled characterwise (the library's
`String.toLower` does not reduce in the kernel; the texts involved are
ASCII, where the two agree). -/
def pyLower (s : String) : String :=
  String.mk (s.toList.map Char.toLower)

/-! ## Exceptions (app/exceptions/base.py; TypeError/ValueError builtins)

`str(e)` on an `AppException` subclass returns its `message` (the class
calls `super().__init__(self.message)`); on builtins it is the args text. -/

inductive PyExc where
  | validationError (msg : String)
  | openAIAPIError (msg : String)
  | appException (msg : String)
  | calComAPIError (msg : String)
  | typeError (msg : String)
  | valueError (msg : String)
deriving DecidableEq, Repr

/-- Python `str(e)`. -/
def PyExc.msgStr : PyExc → String
  | .validationError m => m
  | .openAIAPIError m => m
  | .appException m => m
  | .calComAPIError m => m
  | .typeError m => m
  | .valueError m => m

/-! ## Chat data model (app/models/chat.py) -/

inductive ChatRole where
  | system
  | user
  | assistant
  | function
deriving DecidableEq, Repr

structure ChatMessage where
  role : ChatRole
  content : String
  name : Option String := none
deriving DecidableEq, Repr

structure ChatHistory where
  messages : List ChatMessage := []
deriving DecidableEq, Repr

/-- `ChatHistory.add_message`: appends to the message list. -/
def ChatHistory.add_message (h : ChatHistory) (m : ChatMessage) : ChatHistory :=
  ⟨h.messages ++ [m]⟩

/-! ## Session store (ChatService.__init__ / _get_or_create_session)

`self.sessions : Dict[str, ChatHistory]` is an insertion-ordered map,
modelled as an association list without duplicate keys.  The system
prompt is fixed at service construction (it interpolates the current
date); we carry it as a parameter `prompt`. -/

abbrev SessionStore := List (String × ChatHistory)

def lookupSession (st : SessionStore) (sid : String) : Option ChatHistory :=
  (st.find? (fun p => p.1 == sid)).map (fun p => p.2)

/-- The single system turn a fresh session is seeded with. -/
def systemMessage (prompt : String) : ChatMessage :=
  { role := ChatRole.system, content := prompt }

/-- `_get_or_create_session`.  `freshId` models `str(uuid.uuid4())`;
`if not session_id:` treats `None` and `""` as absent. -/
def getOrCreateSession (prompt freshId : String) (session_id : Option String)
    (st : SessionStore) : String × SessionStore :=
  let sid := match session_id with
    | none => freshId
    | some s => if s == "" then freshId else s
  match lookupSession st sid with
  | some _ => (sid, st)
  | none => (sid, st ++ [(sid, ⟨[systemMessage prompt]⟩)])

/-- `history.add_message(...)` where `history` is the stored object:
in-place mutation of the mapped history. -/
def appendToSession (st : SessionStore) (sid : String) (m : ChatMessage) :
    SessionStore :=
  st.map (fun p => if p.1 == sid then (p.1, p.2.add_message m) else p)

def appendManyToSession (st : SessionStore) (sid : String) :
    List ChatMessage → SessionStore
  | [] => st
  | m :: ms => appendManyToSession (appendToSession st sid m) sid ms

/-- The session-store effect of `ChatService.process_message`: resolve the
session, then append the user turn, the assistant turn, and the tool-result
turns produced by `_process_function_calls`, in that order.  Returns the
identifier under which the turns were recorded. -/
def processMessageStore (prompt freshId : String) (session_id : Option String)
    (userMsg assistantMsg : ChatMessage) (funcTurns : List ChatMessage)
    (st : SessionStore) : String × SessionStore :=
  let sid := (getOrCreateSession prompt freshId session_id st).1
  let st1 := (getOrCreateSession prompt freshId session_id st).2
  (sid, appendManyToSession st1 sid ([userMsg, assistantMsg] ++ funcTurns))

/-- States of the session store reachable through the service's API:
initially empty, grown only by `_get_or_create_session` and by the
non-system appends of `process_message` / `_process_function_calls`
(roles USER, ASSISTANT and FUNCTION — no call site appends a second
SYSTEM turn after creation). -/
inductive ReachableStore : SessionStore → Prop where
  | init : ReachableStore []
  | create (prompt freshId : String) (session_id : Option String)
      {st : SessionStore} :
      ReachableStore st →
      ReachableStore (getOrCreateSession prompt freshId session_id st).2
  | append (sid : String) (m : ChatMessage) {st : SessionStore} :
      ReachableStore st → m.role ≠ ChatRole.system →
      ReachableStore (appendToSession st sid m)

/-- Invariant claimed of every stored history: nonempty, first turn is the
System turn, and no System turn occurs after the first. -/
def systemFirstAndUnique (h : ChatHistory) : Prop :=
  h.messages ≠ [] ∧
  (h.messages.head?.map ChatMessage.role) = some ChatRole.system ∧
  ∀ m ∈ h.messages.tail, m.role ≠ ChatRole.system

/-! ## Router: `send_message` (app/api/routers/chat.py)

The endpoint body after `process_message` returned.  The JSON arguments a
model-issued tool call carries are opaque to the router (only echoed), so
they are modelled as key/value strings. -/

/-- Untyped JSON scalar, as decoded from the extraction tool call's
arguments (`parse_date_with_llm` returns raw `json.loads` output). -/
inductive JVal where
  | jstr (v : String)
  | jnum (v : Int)
  | jbool (v : Bool)
  | jnull
deriving DecidableEq, Repr

/-- Python truthiness of a JSON scalar. -/
def JVal.truthy : JVal → Bool
  | .jstr v => !(v == "")
  | .jnum v => !(v == 0)
  | .jbool v => v
  | .jnull => false

/-- Truthiness of `d.get(key)` (absent key is `None`). -/
def jOptTruthy : Option JVal → Bool
  | none => false
  | some v => v.truthy

/-- Python `v + suffix` for a string `suffix`: succeeds only on `str`,
raises `TypeError` otherwise (line 127: `date_info.get('start_time') + ":00"`). -/
def JVal.addStr : JVal → String → Except PyExc String
  | .jstr v, t => .ok (v ++ t)
  | .jnum _, _ => .error (.typeError "unsupported operand type(s) for +: 'int' and 'str'")
  | .jbool _, _ => .error (.typeError "unsupported operand type(s) for +: 'bool' and 'str'")
  | .jnull, _ => .error (.typeError "unsupported operand type(s) for +: 'NoneType' and 'str'")

/-- Python `x == s` where `s` is a string and `x` arbitrary: equality holds
only between strings (no exception, cross-type `==` is `False`). -/
def JVal.eqStr : JVal → String → Bool
  | .jstr v, s => v == s
  | _, _ => false

/-- Python `f"{x}"` / `str(x)` of a JSON scalar. -/
def JVal.fstr : JVal → String
  | .jstr v => v
  | .jnum v => toString v
  | .jbool v => if v then "True" else "False"
  | .jnull => "None"

/-- One entry of the `slots` list produced by `_get_available_slots`:
`{"start": ..., "end": ..., "date": ...}`.  The `end` key is named `stop`
(`end` is reserved in Lean). -/
structure SlotDict where
  start : String
  stop : String
  date : String
deriving DecidableEq, Repr

def SlotDict.pyRepr (s : SlotDict) : String :=
  "\x7b'start': '" ++ s.start ++ "', 'end': '" ++ s.stop ++
    "', 'date': '" ++ s.date ++ "'\x7d"

/-- The dict `_get_available_slots` returns on success (both the
with-slots and the zero-slots shape; optional keys present only in the
latter). -/
structure SlotsPayload where
  slots : List SlotDict
  message : Option String := none
  alternative_slots : Option (List SlotDict) := none
  event_type_id : Int
  event_type_name : String
deriving DecidableEq, Repr

/-- A value of `response.function_results[name]`: the structured payload
for `get_available_slots`, the in-band `{"error": ...}` dict, or another
handler's result (opaque to the router, kept as its `str(...)` text). -/
inductive FuncResult where
  | slotsResult (data : SlotsPayload)
  | errorResult (msg : String)
  | otherResult (text : String)
deriving DecidableEq, Repr

/-- `slots_data.get('slots')` (after `eval(str(result))`, which round-trips
these dicts of str/int/list values). -/
def FuncResult.slotsField : FuncResult → Option (List SlotDict)
  | .slotsResult d => some d.slots
  | _ => none

/-- `slots_data.get('event_type_id')`. -/
def FuncResult.eventTypeIdField : FuncResult → Option Int
  | .slotsResult d => some d.event_type_id
  | _ => none

def listPyRepr (f : α → String) (l : List α) : String :=
  "[" ++ String.intercalate ", " (l.map f) ++ "]"

/-- `str(result)`: Python repr of the result dict (key order is insertion
order of the source dict literals). -/
def FuncResult.toText : FuncResult → String
  | .slotsResult d =>
    "\x7b'slots': " ++ listPyRepr SlotDict.pyRepr d.slots ++
      (match d.message with
        | some m => ", 'message': '" ++ m ++ "'"
        | none => "") ++
      (match d.alternative_slots with
        | some l => ", 'alternative_slots': " ++ listPyRepr SlotDict.pyRepr l
        | none => "") ++
      ", 'event_type_id': " ++ toString d.event_type_id ++
      ", 'event_type_name': '" ++ d.event_type_name ++ "'\x7d"
  | .errorResult m => "\x7b'error': '" ++ m ++ "'\x7d"
  | .otherResult t => t

/-- A model-issued tool call (`{"name": ..., "arguments": {...}}`); the
arguments dict is opaque at the router level. -/
structure FunctionCall where
  name : String
  arguments : List (String × String) := []
deriving DecidableEq, Repr

/-- `app.models.chat.ChatResponse`, the value `process_message` returns. -/
structure ServiceChatResponse where
  content : String
  function_calls : Option (List FunctionCall)
  function_results : Option (List (String × FuncResult))
deriving DecidableEq, Repr

/-- `app.schemas.chat.ChatRequest`. -/
structure ChatRequest where
  message : String
  user_id : Option String := none
  session_id : Option String := none
deriving DecidableEq, Repr

/-- `app.schemas.chat.ChatResponse`, the endpoint's response body. -/
structure ChatResponseOut where
  response : String
  session_id : String
  requires_action : Bool
  action_details : Option FunctionCall
deriving DecidableEq, Repr

/-- `datetime.fromisoformat` output, observed only as an opaque instant
passed on to `book_event`. -/
structure PyDateTime where
  iso : String
deriving DecidableEq, Repr

structure Attendee where
  email : String
  name : String
  timezone : Option String := none
deriving DecidableEq, Repr

/-- `app.models.calcom.Booking`; datetimes kept as their `.isoformat()`
observations. -/
structure Booking where
  id : Int := 0
  uid : String
  title : String
  description : Option String := none
  start_time : String
  end_time : String
  status : String
  attendees : List Attendee := []
  event_type_id : Int := 0
deriving DecidableEq, Repr

/-- Arguments of the router's direct `calcom_service.book_event(...)` call
(line 215; timezone/language left to the service defaults). -/
structure BookArgs where
  event_type_id : Int
  start_time : PyDateTime
  end_time : PyDateTime
  name : String
  email : String
  title : String
  description : String
deriving DecidableEq, Repr

/-- Parsed arguments of the `extract_datetime` tool call
(`parse_date_with_llm` result, arbitrary JSON). -/
structure DateInfo where
  date : Option JVal := none
  start_time : Option JVal := none
deriving DecidableEq, Repr

/-- Oracles for the router's external collaborators:
`nameMatch`/`emailMatch` are the (stripped) capture groups of the two
`re.search` calls on the raw message; `dateInfo` is the
`parse_date_with_llm` result (that helper catches all its exceptions and
returns `None`, so it is a plain optional value); `monthDayMatch` is the
month-name regex capture already converted to a month number via
`calendar.month_name` plus the day; `timeMatch` the `(\d+):(\d+)` capture;
`fromiso` is `datetime.fromisoformat`; `book` the Cal.com booking call. -/
structure AutoBookEnv where
  nameMatch : Option String
  emailMatch : Option String
  dateInfo : Option DateInfo
  monthDayMatch : Option (Nat × Nat)
  timeMatch : Option (Nat × Nat)
  fromiso : String → Except PyExc PyDateTime
  book : BookArgs → Except PyExc Booking

/-- Lines 81-82: the fixed booking-intent keyword list. -/
def booking_keywords : List String :=
  ["book", "schedule", "appointment", "meeting", "reserve"]

/-- Line 82: `any(keyword in request.message.lower() for keyword in booking_keywords)`. -/
def isBookingRequest (message : String) : Bool :=
  booking_keywords.any (fun k => strContains (pyLower message) k)

/-- Lines 129-164: the direct-extraction fallback.  The month regex
yields `target_date = f"2025-{month:02d}-{day:02d}"`; the time regex
yields `HH:MM:00` after the PM adjustment. -/
def fallbackTargets (env : AutoBookEnv) (message : String) :
    Option JVal × Option String :=
  let td := env.monthDayMatch.map
    (fun p => JVal.jstr ("2025-" ++ pad2 p.1 ++ "-" ++ pad2 p.2))
  let tt := env.timeMatch.map (fun p =>
    let hour := if strContains (pyLower message) "pm" && p.1 < 12 then p.1 + 12 else p.1
    pad2 hour ++ ":" ++ pad2 p.2 ++ ":00")
  (td, tt)

/-- Lines 116-170: resolve `target_date` / `target_time`: the LLM path
(when its dict is truthy in both `date` and `start_time`, where the
`+ ":00"` concatenation may raise `TypeError`), else the regex fallback,
then the literal hardcoded override for "March 14th" ... "2:30". -/
def resolveTargets (env : AutoBookEnv) (message : String) :
    Except PyExc (Option JVal × Option String) :=
  let base : Except PyExc (Option JVal × Option String) :=
    match env.dateInfo with
    | some di =>
      if jOptTruthy di.date && jOptTruthy di.start_time then
        match di.start_time with
        | some stv => (stv.addStr ":00").map (fun t => (di.date, some t))
        | none => .ok (fallbackTargets env message)
      else .ok (fallbackTargets env message)
    | none => .ok (fallbackTargets env message)
  base.map (fun p =>
    if strContains message "March 14th" && strContains message "2:30" then
      (some (JVal.jstr "2025-03-14"), some "14:30:00")
    else p)

/-- Lines 183-201: exact match (`slot['date'] == target_date and
target_time in slot['start']`, first in list order), else the first slot
matching on date alone. -/
def findTargetSlot (slots : List SlotDict) (td : JVal) (tt : String) :
    Option SlotDict :=
  match slots.find? (fun s => td.eqStr s.date && strContains s.start tt) with
  | some s => some s
  | none => (slots.filter (fun s => td.eqStr s.date)).head?

/-- Line 226: the success confirmation text. -/
def confirmText (name dateStr timeStr uid : String) : String :=
  "Appointment booked successfully for " ++ name ++ " on " ++ dateStr ++
    " at " ++ timeStr ++ ". Booking ID: " ++ uid

/-- Lines 88-228: the auto-booking block, entered once the trigger guard
holds.  `chat1` is the response object as already built (with the echoed
`str(result)` text); every silent abort returns it unchanged. -/
def autoBook (env : AutoBookEnv) (message : String) (chat1 : ChatResponseOut)
    (r : FuncResult) : Except PyExc ChatResponseOut :=
  match r.slotsField with
  | none => .ok chat1
  | some slots =>
    if slots.isEmpty then .ok chat1
    else
      match env.nameMatch, env.emailMatch, r.eventTypeIdField with
      | some name, some email, some etid =>
        if etid == 0 then .ok chat1   -- `if ... and event_type_id:` (0 is falsy)
        else
          (resolveTargets env message).bind (fun tdtt =>
            match tdtt with
            | (some td, some tt) =>
              if td.truthy && !(tt == "") then
                match findTargetSlot slots td tt with
                | none => .ok chat1
                | some slot =>
                  (env.fromiso slot.start).bind (fun start_time =>
                  (env.fromiso slot.stop).bind (fun end_time =>
                  (env.book
                    { event_type_id := etid, start_time := start_time,
                      end_time := end_time, name := name, email := email,
                      title := "Appointment with " ++ name,
                      description := "Scheduled appointment for " ++ name }).bind
                  (fun booking =>
                    .ok { chat1 with
                          response := confirmText name td.fstr tt booking.uid,
                          requires_action := false,
                          action_details := none })))
              else .ok chat1
            | _ => .ok chat1)
      | _, _, _ => .ok chat1

/-- Line 66: `bool(response.function_calls)` — true iff at least one tool
call was issued. -/
def function_calls_truthy (resp : ServiceChatResponse) : Bool :=
  match resp.function_calls with
  | some l => !l.isEmpty
  | none => false

/-- Line 65: `request.session_id or "new_session"`. -/
def respSessionId (session_id : Option String) : String :=
  match session_id with
  | none => "new_session"
  | some s => if s == "" then "new_session" else s

/-- Lines 63-68: the response object before any function-result echo. -/
def baselineResponse (req : ChatRequest) (resp : ServiceChatResponse) :
    ChatResponseOut :=
  { response := if resp.content == "" then "I'll check your scheduled events." else resp.content
    session_id := respSessionId req.session_id
    requires_action := function_calls_truthy resp
    action_details := match resp.function_calls with
      | some (c :: _) => some c
      | _ => none }

/-- Lines 71-77: the echoed tool call and its result, when
`function_results` is truthy, `function_calls` is truthy, and the first
call's name has an entry in the results dict. -/
def echoedCall (resp : ServiceChatResponse) : Option (String × FuncResult) :=
  match resp.function_results with
  | none => none
  | some results =>
    if results.isEmpty then none
    else
      match resp.function_calls with
      | some (c :: _) =>
        match (results.find? (fun p => p.1 == c.name)).map (fun p => p.2) with
        | some r => some (c.name, r)
        | none => none
      | _ => none

/-- The response after the echo override (line 77), before auto-booking. -/
def responseAfterEcho (req : ChatRequest) (resp : ServiceChatResponse) :
    ChatResponseOut :=
  match echoedCall resp with
  | some (_, r) => { baselineResponse req resp with response := r.toText }
  | none => baselineResponse req resp

/-- The endpoint body inside the `try`.  The second component records
whether line 87's "Auto-booking logic triggered" point was reached. -/
def sendMessageBody (env : AutoBookEnv) (req : ChatRequest)
    (resp : ServiceChatResponse) : Except PyExc ChatResponseOut × Bool :=
  match echoedCall resp with
  | none => (.ok (baselineResponse req resp), false)
  | some (name, r) =>
    if name == "get_available_slots" && isBookingRequest req.message then
      (autoBook env req.message (responseAfterEcho req resp) r, true)
    else (.ok (responseAfterEcho req resp), false)

/-- Lines 236-244: the endpoint's `except` clauses — `ValidationError`
and `OpenAIAPIError` re-raise unchanged, everything else is re-raised as
`AppException(f"Error processing message: {e}")`. -/
def routeExc : PyExc → PyExc
  | .validationError m => .validationError m
  | .openAIAPIError m => .openAIAPIError m
  | e => .appException ("Error processing message: " ++ e.msgStr)

/-- `send_message` from `process_message`'s result on: the body guarded by
the endpoint's exception handlers. -/
def sendMessage (env : AutoBookEnv) (req : ChatRequest)
    (resp : ServiceChatResponse) : Except PyExc ChatResponseOut × Bool :=
  ((sendMessageBody env req resp).1.mapError routeExc,
    (sendMessageBody env req resp).2)

/-! ## Handlers (app/services/chat.py)

Day arithmetic: `datetime.strptime(date_str, "%Y-%m-%d")` yields midnight
of a calendar day and the handler only ever adds whole days to it, so
those datetimes are modelled as day indices (`Day := Int`). -/

abbrev Day := Int

/-- Python truthiness of `args.get(key)` for a string-valued key. -/
def optStrTruthy : Option String → Bool
  | none => false
  | some s => !(s == "")

/-- Python truthiness of `args.get(key)` for an int-valued key. -/
def optIntTruthy : Option Int → Bool
  | none => false
  | some n => !(n == 0)

/-- `app.models.calcom.EventType`. -/
structure EventType where
  id : Int
  slug : String := ""
  title : String
  description : Option String := none
  length : Int
  hidden : Bool := false
deriving DecidableEq, Repr

/-- `app.models.calcom.AvailableSlot`, observed through the three
projections the handler applies: `slot.start.isoformat()`,
`slot.end.isoformat()` and `slot.start.strftime("%Y-%m-%d")`. -/
structure AvailableSlot where
  startIso : String
  endIso : String
  dateStr : String
deriving DecidableEq, Repr

def slotToDict (s : AvailableSlot) : SlotDict :=
  { start := s.startIso, stop := s.endIso, date := s.dateStr }

/-- `abs(et.length - duration)`, the Python sort key. -/
def durationKey (duration : Int) (et : EventType) : Nat :=
  (et.length - duration).natAbs

/-- Stable insertion used to model `list.sort(key=...)`: a new element
goes after every element whose key is `≤` its own, so elements with equal
keys keep their original relative order (Python's sort is stable). -/
def insertByKey (key : EventType → Nat) (x : EventType) :
    List EventType → List EventType
  | [] => [x]
  | y :: ys => if key y ≤ key x then y :: insertByKey key x ys else x :: y :: ys

/-- `event_types.sort(key=lambda et: abs(et.length - duration))`. -/
def sortByKey (key : EventType → Nat) (l : List EventType) : List EventType :=
  l.foldl (fun acc x => insertByKey key x acc) []

/-- Lines 369-375 (and identically 477-483): exact-duration match via
`next(...)`, else stable sort by absolute duration difference and take the
head. -/
def closestEventType (event_types : List EventType) (duration : Int) :
    Option EventType :=
  match event_types.find? (fun et => et.length == duration) with
  | some et => some et
  | none => (sortByKey (durationKey duration) event_types).head?

/-- Arguments dict of `_get_available_slots` (absent key ↦ `none`). -/
structure SlotsArgs where
  date : Option String := none
  event_type_id : Option Int := none
  duration : Option Int := none
  timezone : Option String := none
deriving DecidableEq, Repr

/-- External collaborators of `_get_available_slots`: the Cal.com client
(`get_event_types`, `get_available_slots`) and `datetime.strptime`.
Provider calls are pure oracles, so repeated calls within the one handler
invocation agree. -/
structure SlotsEnv where
  get_event_types : Except PyExc (List EventType)
  strptime : String → Except PyExc Day
  get_available_slots : Int → Day → Day → Option String → Except PyExc (List AvailableSlot)

/-- An availability query issued to the provider:
(event_type_id, start_date, end_date, explicit timezone argument). -/
abbrev SlotsQuery := Int × Day × Day × Option String

/-- Lines 445-447: `except Exception as e: raise AppException(...)`. -/
def wrapSlotsExc (e : PyExc) : PyExc :=
  .appException ("Error getting available slots: " ++ e.msgStr)

/-- Lines 407-410 / 427-430: event-type title lookup for the response. -/
def eventTypeNameFor (event_types : List EventType) (event_type_id : Int) : String :=
  match event_types.find? (fun et => et.id == event_type_id) with
  | some et => et.title
  | none => "Event Type " ++ toString event_type_id

/-- Lines 362-378 (outside the handler's `try`): the `event_type_id`
actually used — the caller's when truthy, else the id of the
duration-closest event type. -/
def slotsSelectedEtid (env : SlotsEnv) (args : SlotsArgs) : Except PyExc Int :=
  if !(optIntTruthy args.event_type_id) then
    match env.get_event_types with
    | .error e => .error e
    | .ok [] => .error (.validationError "No event types available")
    | .ok (et0 :: rest) =>
      match closestEventType (et0 :: rest) (args.duration.getD 30) with
      | some et => .ok et.id
      | none => .ok et0.id   -- unreachable: the list is nonempty
  else .ok (args.event_type_id.getD 0)

/-- `_get_available_slots` (lines 352-447).  Besides the handler's
result, the second component records the availability queries issued to
the provider, in order. -/
def getAvailableSlotsHandler (env : SlotsEnv) (args : SlotsArgs) :
    Except PyExc SlotsPayload × List SlotsQuery :=
  let date_str := args.date.getD ""
  let timezone := args.timezone.getD "America/Los_Angeles"
  if !(optStrTruthy args.date) then
    (.error (.validationError "Date is required"), [])
  else
    match slotsSelectedEtid env args with
    | .error e => (.error e, [])
    | .ok event_type_id =>
      match env.strptime date_str with
      | .error e => (.error (wrapSlotsExc e), [])
      | .ok date =>
        let start_date := date
        let end_date := date + 7
        let q1 : SlotsQuery := (event_type_id, start_date, end_date, some timezone)
        match env.get_available_slots event_type_id start_date end_date (some timezone) with
        | .error e => (.error (wrapSlotsExc e), [q1])
        | .ok slots =>
          if slots.isEmpty then
            let alternative_start := date + 1
            let alternative_end := alternative_start + 14
            let q2 : SlotsQuery := (event_type_id, alternative_start, alternative_end, none)
            match env.get_available_slots event_type_id alternative_start alternative_end none with
            | .error e => (.error (wrapSlotsExc e), [q1, q2])
            | .ok alternative_slots =>
              match env.get_event_types with
              | .error e => (.error (wrapSlotsExc e), [q1, q2])
              | .ok event_types =>
                let event_type_name := eventTypeNameFor event_types event_type_id
                (.ok { slots := [],
                       message := some ("No available slots found for " ++
                         event_type_name ++ " on " ++ date_str ++ "."),
                       alternative_slots :=
                         some ((alternative_slots.take 10).map slotToDict),
                       event_type_id := event_type_id,
                       event_type_name := event_type_name }, [q1, q2])
          else
            match env.get_event_types with
            | .error e => (.error (wrapSlotsExc e), [q1])
            | .ok event_types =>
              let event_type_name := eventTypeNameFor event_types event_type_id
              (.ok { slots := slots.map slotToDict,
                     event_type_id := event_type_id,
                     event_type_name := event_type_name }, [q1])

/-- Arguments dict of `_book_event`. -/
structure BookArgsIn where
  event_type_id : Option Int := none
  start_time : Option String := none
  end_time : Option String := none
  name : Option String := none
  email : Option String := none
  title : Option String := none
  description : Option String := none
  timezone : Option String := none
  language : Option String := none
deriving DecidableEq, Repr

/-- The provider booking call issued by `_book_event`; datetimes observed
as epoch seconds (only their difference and identity are used). -/
structure ServiceBookArgs where
  event_type_id : Int
  start_time : Int
  end_time : Int
  name : String
  email : String
  title : Option String
  description : Option String
  timezone : String
  language : String
deriving DecidableEq, Repr

/-- External collaborators of `_book_event`: `datetime.fromisoformat`
(epoch seconds of a parsed instant) and the Cal.com client. -/
structure BookEnv where
  get_event_types : Except PyExc (List EventType)
  fromiso : String → Except PyExc Int
  book_event : ServiceBookArgs → Except PyExc Booking

/-- The dict `_book_event` returns (lines 519-532); attendees shaped to
(email, name) pairs. -/
structure BookReply where
  booking_id : String
  title : String
  start_time : String
  end_time : String
  status : String
  attendees : List (String × String)
deriving DecidableEq, Repr

/-- Lines 534-536. -/
def wrapBookExc (e : PyExc) : PyExc :=
  .appException ("Error booking event: " ++ e.msgStr)

/-- Lines 463-470: the requested duration in minutes — from the supplied
start/end instants when both are present
(`int((end - start).total_seconds() / 60)`, truncation toward zero),
else the default 30. -/
def bookDurationMinutes (env : BookEnv) (args : BookArgsIn) : Except PyExc Int :=
  if optStrTruthy args.start_time && optStrTruthy args.end_time then
    match env.fromiso (args.start_time.getD "") with
    | .error e => .error e
    | .ok start_time =>
      match env.fromiso (args.end_time.getD "") with
      | .error e => .error e
      | .ok end_time => .ok (Int.tdiv (end_time - start_time) 60)
  else .ok 30

/-- Lines 461-486 (outside the handler's `try`): the `event_type_id`
actually used by `_book_event`. -/
def bookSelectedEtid (env : BookEnv) (args : BookArgsIn) : Except PyExc Int :=
  if !(optIntTruthy args.event_type_id) then
    match bookDurationMinutes env args with
    | .error e => .error e
    | .ok duration_minutes =>
      match env.get_event_types with
      | .error e => .error e
      | .ok [] => .error (.validationError "No event types available")
      | .ok (et0 :: rest) =>
        match closestEventType (et0 :: rest) duration_minutes with
        | some et => .ok et.id
        | none => .ok et0.id   -- unreachable: the list is nonempty
  else .ok (args.event_type_id.getD 0)

/-- `_book_event` (lines 449-536).  The second component records the
provider booking call, when one was issued. -/
def bookEventHandler (env : BookEnv) (args : BookArgsIn) :
    Except PyExc BookReply × Option ServiceBookArgs :=
  let start_time_str := args.start_time.getD ""
  let end_time_str := args.end_time.getD ""
  let timezone := args.timezone.getD "America/Los_Angeles"
  let language := args.language.getD "en"
  match bookSelectedEtid env args with
  | .error e => (.error e, none)
  | .ok event_type_id =>
    if !(optStrTruthy args.start_time) then
      (.error (.validationError "Start time is required"), none)
    else if !(optStrTruthy args.end_time) then
      (.error (.validationError "End time is required"), none)
    else if !(optStrTruthy args.name) then
      (.error (.validationError "Name is required"), none)
    else if !(optStrTruthy args.email) then
      (.error (.validationError "Email is required"), none)
    else
      match env.fromiso start_time_str with
      | .error e => (.error (wrapBookExc e), none)
      | .ok start_time =>
        match env.fromiso end_time_str with
        | .error e => (.error (wrapBookExc e), none)
        | .ok end_time =>
          let callArgs : ServiceBookArgs :=
            { event_type_id := event_type_id, start_time := start_time,
              end_time := end_time, name := args.name.getD "",
              email := args.email.getD "", title := args.title,
              description := args.description, timezone := timezone,
              language := language }
          match env.book_event callArgs with
          | .error e => (.error (wrapBookExc e), some callArgs)
          | .ok booking =>
            (.ok { booking_id := booking.uid, title := booking.title,
                   start_time := booking.start_time,
                   end_time := booking.end_time, status := booking.status,
                   attendees := booking.attendees.map (fun a => (a.email, a.name)) },
              some callArgs)

/-! ## Function dispatch (`_process_function_calls`, lines 298-350) -/

abbrev FuncArgs := List (String × String)

/-- The six handlers, abstracted as oracles producing either a result
(observed through its `str(...)` text) or a raised exception. -/
structure DispatchEnv where
  get_event_types_h : FuncArgs → Except PyExc String
  get_available_slots_h : FuncArgs → Except PyExc String
  book_event_h : FuncArgs → Except PyExc String
  list_events_h : FuncArgs → Except PyExc String
  cancel_event_h : FuncArgs → Except PyExc String
  reschedule_event_h : FuncArgs → Except PyExc String

def knownFunctionNames : List String :=
  ["get_event_types", "get_available_slots", "book_event",
   "list_events", "cancel_event", "reschedule_event"]

/-- Lines 311-324: route a tool call by name; an unknown name raises
`ValidationError(f"Unknown function: {name}")`. -/
def dispatchFunction (env : DispatchEnv) (name : String) (args : FuncArgs) :
    Except PyExc String :=
  if name == "get_event_types" then env.get_event_types_h args
  else if name == "get_available_slots" then env.get_available_slots_h args
  else if name == "book_event" then env.book_event_h args
  else if name == "list_events" then env.list_events_h args
  else if name == "cancel_event" then env.cancel_event_h args
  else if name == "reschedule_event" then env.reschedule_event_h args
  else .error (.validationError ("Unknown function: " ++ name))

/-- A `results[name]` entry: the handler's result, or the in-band
`{"error": str(e)}` dict. -/
inductive DispatchOutcome where
  | success (text : String)
  | failure (msg : String)
deriving DecidableEq, Repr

/-- Python `results[name] = value`: replace in place or append. -/
def dictUpsert (d : List (String × α)) (k : String) (v : α) :
    List (String × α) :=
  if d.any (fun p => p.1 == k) then
    d.map (fun p => if p.1 == k then (k, v) else p)
  else d ++ [(k, v)]

/-- The FUNCTION-role history turn one loop iteration appends for call
`c`: the result text on success, `f"Error: {e}"` on failure. -/
def functionTurn (env : DispatchEnv) (c : FunctionCall) : ChatMessage :=
  match dispatchFunction env c.name c.arguments with
  | .ok r => { role := ChatRole.function, content := r, name := some c.name }
  | .error e =>
    { role := ChatRole.function, content := "Error: " ++ e.msgStr, name := some c.name }

def processFunctionCallsAux (env : DispatchEnv) :
    List FunctionCall → List (String × DispatchOutcome) → ChatHistory →
    List (String × DispatchOutcome) × ChatHistory
  | [], results, history => (results, history)
  | c :: rest, results, history =>
    match dispatchFunction env c.name c.arguments with
    | .ok r =>
      processFunctionCallsAux env rest (dictUpsert results c.name (.success r))
        (history.add_message
          { role := ChatRole.function, content := r, name := some c.name })
    | .error e =>
      processFunctionCallsAux env rest (dictUpsert results c.name (.failure e.msgStr))
        (history.add_message
          { role := ChatRole.function, content := "Error: " ++ e.msgStr,
            name := some c.name })

/-- `_process_function_calls`: fold the dispatch loop over the calls.
Its Lean type already shows that no exception escapes the loop. -/
def processFunctionCalls (env : DispatchEnv) (calls : List FunctionCall)
    (history : ChatHistory) : List (String × DispatchOutcome) × ChatHistory :=
  processFunctionCallsAux env calls [] history

/-! ## `_list_events` (lines 538-595) -/

/-- `datetime.now()` observed at second granularity: a day index plus the
second of day (sub-second precision elided — no claim depends on it).
Day 0 is 1970-01-01, a Thursday, so Python's `weekday()` (Monday = 0) is
`(epochDay + 3) mod 7`. -/
structure PyDT where
  epochDay : Int
  secOfDay : Nat
deriving DecidableEq, Repr

def PyDT.weekday (d : PyDT) : Nat := ((d.epochDay + 3) % 7).toNat

/-- Arguments dict of `_list_events`. -/
structure ListEventsArgs where
  email : Option String := none
  start_date : Option String := none
  end_date : Option String := none
  status : Option String := none
deriving DecidableEq, Repr

/-- The provider query `get_bookings` receives. -/
structure BookingsQuery where
  email : String
  start_date : PyDT
  end_date : PyDT
  status : Option String
deriving DecidableEq, Repr

structure ListEventsEnv where
  get_bookings : BookingsQuery → Except PyExc (List Booking)

/-- One entry of the `events` list (`"id"` carries `booking.uid`);
attendees shaped to (email, name) pairs. -/
structure EventOut where
  id : String
  title : String
  start_time : String
  end_time : String
  status : String
  attendees : List (String × String)
deriving DecidableEq, Repr

structure EventsReply where
  events : List EventOut
  total : Nat
deriving DecidableEq, Repr

/-- Lines 550-559: `start_of_week = today - timedelta(days=today.weekday())`
(this keeps `today`'s time of day), `end_of_week = start_of_week + 6 days`,
then `.replace(hour=23, minute=59, second=59)`. -/
def listEventsRange (now : PyDT) : PyDT × PyDT :=
  let start_of_week : PyDT := { now with epochDay := now.epochDay - (now.weekday : Int) }
  let end_of_week : PyDT := { start_of_week with epochDay := start_of_week.epochDay + 6 }
  (start_of_week, { end_of_week with secOfDay := 23 * 3600 + 59 * 60 + 59 })

def bookingToEvent (b : Booking) : EventOut :=
  { id := b.uid, title := b.title, start_time := b.start_time,
    end_time := b.end_time, status := b.status,
    attendees := b.attendees.map (fun a => (a.email, a.name)) }

/-- `_list_events`.  The second component records the provider query,
when one was issued. -/
def listEventsHandler (env : ListEventsEnv) (now : PyDT) (args : ListEventsArgs) :
    Except PyExc EventsReply × Option BookingsQuery :=
  if !(optStrTruthy args.email) then
    (.error (.validationError "Email is required"), none)
  else
    let q : BookingsQuery :=
      { email := args.email.getD "", start_date := (listEventsRange now).1,
        end_date := (listEventsRange now).2, status := args.status }
    match env.get_bookings q with
    | .error e => (.error (.appException ("Error listing events: " ++ e.msgStr)), some q)
    | .ok bookings =>
      (.ok { events := bookings.map bookingToEvent, total := bookings.length }, some q)

/-- Specification-side selection: the first element of the list whose key
is minimal (ties broken by listing order).  The claim about the handlers'
`sort`-then-head selection is proved against this function. -/
def firstMinBy (key : EventType → Nat) : List EventType → Option EventType
  | [] => none
  | x :: xs =>
    match firstMinBy key xs with
    | none => some x
    | some m => if key m < key x then some m else some x

/-- Merge of two ordered candidate minimizers: the left argument stands
earlier in listing order, so it wins ties. -/
def combineMinBy (key : EventType → Nat) :
    Option EventType → Option EventType → Option EventType
  | none, b => b
  | some y, none => some y
  | some y, some m => if key m < key y then some m else some y

/-- All stored histories satisfy the System-turn invariant. -/
def StoreOK (st : SessionStore) : Prop :=
  ∀ p ∈ st, systemFirstAndUnique p.2

/-- Python `name in results` on the results dict. -/
def hasKey (d : List (String × α)) (k : String) : Bool :=
  d.any (fun p => p.1 == k)

/-! ## Concrete fixtures for witnesses and counterexamples -/

def fcGas : FunctionCall :=
  { name := "get_available_slots", arguments := [("date", "2025-03-14")] }

def bookingAbc : Booking :=
  { uid := "abc123", title := "Appointment with Jane Doe",
    start_time := "2025-03-14T14:30:00-07:00",
    end_time := "2025-03-14T15:00:00-07:00", status := "ACCEPTED" }

/-- Slots payload with one slot on the target date at 14:30. -/
def payloadMatch : SlotsPayload :=
  { slots := [{ start := "2025-03-14T14:30:00-07:00",
                stop := "2025-03-14T15:00:00-07:00", date := "2025-03-14" }],
    event_type_id := 7, event_type_name := "Quick Chat" }

/-- Slots payload whose only slot is on a different date. -/
def payloadOtherDate : SlotsPayload :=
  { slots := [{ start := "2025-03-20T14:30:00-07:00",
                stop := "2025-03-20T15:00:00-07:00", date := "2025-03-20" }],
    event_type_id := 7, event_type_name := "Quick Chat" }

def respWith (p : SlotsPayload) : ServiceChatResponse :=
  { content := "", function_calls := some [fcGas],
    function_results := some [("get_available_slots", FuncResult.slotsResult p)] }

def reqNoKeyword : ChatRequest :=
  { message := "What times are open March 14th?", session_id := some "sess1" }

def reqBookJane : ChatRequest :=
  { message := "Book an appointment for Jane Doe (jane@example.com) on March 14th at 2:30pm",
    session_id := some "sess2" }

def reqSchedule : ChatRequest :=
  { message := "Please schedule a visit for Jane Doe (jane@example.com) in spring",
    session_id := some "sess3" }

/-- Inert oracle set: no regex hits, no LLM extraction, failing provider. -/
def envNoop : AutoBookEnv :=
  { nameMatch := none, emailMatch := none, dateInfo := none,
    monthDayMatch := none, timeMatch := none,
    fromiso := fun _ => Except.error (.valueError "Invalid isoformat string"),
    book := fun _ => Except.error (.calComAPIError "Cal.com API error") }

/-- Oracles for the regex-resolved Jane Doe booking message. -/
def envJane : AutoBookEnv :=
  { nameMatch := some "Jane Doe", emailMatch := some "jane@example.com",
    dateInfo := none, monthDayMatch := some (3, 14), timeMatch := some (2, 30),
    fromiso := fun s => Except.ok { iso := s },
    book := fun _ => Except.ok bookingAbc }

/-- Oracles where the LLM extraction returns a non-string `start_time`
(legal JSON for the extraction tool), so `start_time + ":00"` raises. -/
def envBadLLM : AutoBookEnv :=
  { nameMatch := some "Jane Doe", emailMatch := some "jane@example.com",
    dateInfo := some { date := some (JVal.jstr "2025-03-14"),
                       start_time := some (JVal.jnum 1430) },
    monthDayMatch := none, timeMatch := none,
    fromiso := fun s => Except.ok { iso := s },
    book := fun _ => Except.ok bookingAbc }

/-- The response body produced by the successful auto-booking run on the
Jane Doe fixtures. -/
def outJane : ChatResponseOut :=
  { response := confirmText "Jane Doe" "2025-03-14" "14:30:00" "abc123",
    session_id := "sess2", requires_action := false, action_details := none }

def etQuick : EventType := { id := 7, title := "Quick Chat", length := 30 }

/-- Slots provider for the C6 scenario: the primary query (which passes an
explicit timezone) finds nothing; the secondary query (no timezone
argument) finds 12 slots. -/
def envEmptyPrimary : SlotsEnv :=
  { get_event_types := Except.ok [etQuick],
    strptime := fun s =>
      if s == "2025-03-14" then Except.ok 20161
      else Except.error (.valueError "time data does not match format"),
    get_available_slots := fun _ _ _ tz =>
      if tz.isSome then Except.ok []
      else Except.ok (List.replicate 12
        { startIso := "2025-03-15T09:00:00-07:00",
          endIso := "2025-03-15T09:30:00-07:00", dateStr := "2025-03-15" }) }

def argsMarch14 : SlotsArgs := { date := some "2025-03-14" }

/-- The payload `_get_available_slots` produces in the `envEmptyPrimary`
scenario: no primary slots, ten alternatives surfaced. -/
def payloadAlt10 : SlotsPayload :=
  { slots := [],
    message := some "No available slots found for Quick Chat on 2025-03-14.",
    alternative_slots := some (List.replicate 10
      { start := "2025-03-15T09:00:00-07:00",
        stop := "2025-03-15T09:30:00-07:00", date := "2025-03-15" }),
    event_type_id := 7, event_type_name := "Quick Chat" }

/-- Event-type list with a duration tie (two 40-minute types). -/
def etsTie : List EventType :=
  [{ id := 1, title := "Short", length := 20 },
   { id := 2, title := "Mid A", length := 40 },
   { id := 3, title := "Mid B", length := 40 }]

/-- Availability env whose event-type list carries a duration tie. -/
def envSelTie : SlotsEnv :=
  { get_event_types := Except.ok etsTie,
    strptime := fun _ => Except.error (.valueError "time data does not match format"),
    get_available_slots := fun _ _ _ _ => Except.ok [] }

def argsDur45 : SlotsArgs := { date := some "2025-03-14", duration := some 45 }

/-- Booking env over the same tied list; the supplied instants are 45
minutes apart. -/
def envBookTie : BookEnv :=
  { get_event_types := Except.ok etsTie,
    fromiso := fun s => if s == "E" then Except.ok 2700 else Except.ok 0,
    book_event := fun _ => Except.error (.calComAPIError "Cal.com API error") }

def argsBook45 : BookArgsIn := { start_time := some "S", end_time := some "E" }

/-- Dispatch oracles: one handler succeeds, the rest raise. -/
def envDispatch : DispatchEnv :=
  { get_event_types_h := fun _ => Except.ok "\x7b'event_types': [], 'total': 0\x7d",
    get_available_slots_h := fun _ => Except.error (.validationError "Date is required"),
    book_event_h := fun _ => Except.error (.appException "Error booking event: boom"),
    list_events_h := fun _ => Except.error (.validationError "Email is required"),
    cancel_event_h := fun _ => Except.error (.validationError "Booking ID is required"),
    reschedule_event_h := fun _ => Except.error (.validationError "Booking ID is required") }

def callsWithUnknown : List FunctionCall :=
  [{ name := "bogus_tool" }, { name := "get_event_types" }]

def uuidFresh : String := "3f2504e0-4f89-41d3-9a0c-0305e82c3301"

def promptFix : String := "Cal.com Scheduling Assistant - Today is Friday, March 14, 2025 (PDT)"

def userHi : ChatMessage := { role := ChatRole.user, content := "hi" }

def asstHello : ChatMessage := { role := ChatRole.assistant, content := "hello" }

/-- `datetime.now()` on a Wednesday (epoch day 6) at 12:34:56. -/
def nowWed : PyDT := { epochDay := 6, secOfDay := 45296 }

def envBookingsEmpty : ListEventsEnv := { get_bookings := fun _ => Except.ok [] }

def argsListJane : ListEventsArgs :=
  { email := some "jane@example.com",
    start_date := some "2030-01-01", end_date := some "2030-01-02" }

/-! # Theorems -/

/-! ## Shared helper lemmas -/

theorem head_filter_eq_find {α : Type} (p : α → Bool) :
    ∀ l : List α, (l.filter p).head? = l.find? p := by
  intro l
  induction l with
  | nil => rfl
  | cons x xs ih =>
    cases h : p x
    · simp [List.filter_cons, h, List.find?_cons_of_neg, ih]
    · simp [List.filter_cons, h, List.find?_cons_of_pos]

/-! ## C9: session-store invariant -/

theorem systemFirstAndUnique_seed (prompt : String) :
    systemFirstAndUnique ⟨[systemMessage prompt]⟩ := by
  refine ⟨by simp, by simp [systemMessage], ?_⟩
  intro m hm
  simp at hm

theorem systemFirstAndUnique_add (h : ChatHistory) (m : ChatMessage)
    (hh : systemFirstAndUnique h) (hm : m.role ≠ ChatRole.system) :
    systemFirstAndUnique (h.add_message m) := by
  obtain ⟨hne, hhead, htail⟩ := hh
  cases hmsg : h.messages with
  | nil => exact absurd hmsg hne
  | cons a l =>
    rw [hmsg] at hhead htail
    refine ⟨by simp [ChatHistory.add_message, hmsg], ?_, ?_⟩
    · simp only [List.head?_cons, Option.map_some'] at hhead
      simp [ChatHistory.add_message, hmsg]
      simpa using hhead
    · intro x hx
      simp [ChatHistory.add_message, hmsg] at hx
      rcases hx with hx | rfl
      · exact htail x (by simpa using hx)
      · exact hm

theorem storeOK_nil : StoreOK [] := by
  intro p hp
  simp at hp

theorem storeOK_getOrCreate_aux (prompt sid2 : String) (st : SessionStore)
    (h : StoreOK st) :
    StoreOK (match lookupSession st sid2 with
      | some _ => (sid2, st)
      | none =>
        (sid2, st ++ [(sid2, (⟨[systemMessage prompt]⟩ : ChatHistory))])).2 := by
  cases hl : lookupSession st sid2 with
  | some v => exact h
  | none =>
    intro p hp
    rcases List.mem_append.mp hp with hp | hp
    · exact h p hp
    · simp at hp
      rw [hp]
      exact systemFirstAndUnique_seed prompt

theorem storeOK_getOrCreate (prompt freshId : String) (sid : Option String)
    (st : SessionStore) (h : StoreOK st) :
    StoreOK (getOrCreateSession prompt freshId sid st).2 := by
  have haux := storeOK_getOrCreate_aux prompt
    (match sid with
      | none => freshId
      | some s => if s == "" then freshId else s) st h
  simpa [getOrCreateSession] using haux

theorem storeOK_append (st : SessionStore) (sid : String) (m : ChatMessage)
    (h : StoreOK st) (hm : m.role ≠ ChatRole.system) :
    StoreOK (appendToSession st sid m) := by
  intro p hp
  unfold appendToSession at hp
  rcases List.mem_map.mp hp with ⟨q, hq, hpq⟩
  cases hk : q.1 == sid
  · rw [hk] at hpq
    simp at hpq
    rw [← hpq]
    exact h q hq
  · rw [hk] at hpq
    simp at hpq
    rw [← hpq]
    exact systemFirstAndUnique_add _ _ (h q hq) hm

theorem reachable_storeOK {st : SessionStore} (h : ReachableStore st) :
    StoreOK st := by
  induction h with
  | init => exact storeOK_nil
  | create prompt freshId sid _ ih => exact storeOK_getOrCreate prompt freshId sid _ ih
  | append sid m _ hrole ih => exact storeOK_append _ sid m ih hrole

theorem getOrCreate_known (prompt freshId sid : String) (st : SessionStore)
    (hsid : ¬ sid = "") (h : (lookupSession st sid).isSome = true) :
    getOrCreateSession prompt freshId (some sid) st = (sid, st) := by
  unfold getOrCreateSession
  have hbeq : (sid == "") = false := by
    simp [hsid]
  obtain ⟨v, hv⟩ := Option.isSome_iff_exists.mp h
  simp [hbeq, hv]

theorem getOrCreate_unknown (prompt freshId sid : String) (st : SessionStore)
    (hsid : ¬ sid = "") (h : lookupSession st sid = none) :
    getOrCreateSession prompt freshId (some sid) st =
      (sid, st ++ [(sid, ⟨[systemMessage prompt]⟩)]) := by
  unfold getOrCreateSession
  have hbeq : (sid == "") = false := by
    simp [hsid]
  simp [hbeq, h]

theorem lookupSession_append_self (st : SessionStore) (sid : String)
    (h : lookupSession st sid = none) (hist : ChatHistory) :
    lookupSession (st ++ [(sid, hist)]) sid = some hist := by
  unfold lookupSession at h ⊢
  rw [List.find?_append]
  have h2 : st.find? (fun p => p.1 == sid) = none := by
    cases hf : List.find? (fun p => p.1 == sid) st
    · rfl
    · rw [hf] at h
      simp at h
  rw [h2]
  simp [List.find?]

/-- C9: in every reachable store, every session's first turn is the System
turn and no other System turn exists; `_get_or_create_session` with a
known identifier returns the store unchanged (no duplication, no
removal), and with a present-but-unknown identifier creates a session
under that identifier seeded with exactly one System turn. -/
theorem claim_C9 {st : SessionStore} (hreach : ReachableStore st) :
    (∀ sid h, (sid, h) ∈ st → systemFirstAndUnique h) ∧
    (∀ prompt freshId sid, ¬ sid = "" → (lookupSession st sid).isSome = true →
      getOrCreateSession prompt freshId (some sid) st = (sid, st)) ∧
    (∀ prompt freshId sid, ¬ sid = "" → lookupSession st sid = none →
      (getOrCreateSession prompt freshId (some sid) st).1 = sid ∧
      lookupSession (getOrCreateSession prompt freshId (some sid) st).2 sid =
        some ⟨[systemMessage prompt]⟩) := by
  have hok : StoreOK st := reachable_storeOK hreach
  refine ⟨fun sid h hm => hok (sid, h) hm, ?_, ?_⟩
  · intro prompt freshId sid hs hl
    exact getOrCreate_known prompt freshId sid st hs hl
  · intro prompt freshId sid hs hl
    rw [getOrCreate_unknown prompt freshId sid st hs hl]
    exact ⟨rfl, lookupSession_append_self st sid hl _⟩

/-- C9 witness: concretely, creating "sess1" in an empty store seeds the
System turn, and a repeated `get_or_create` with "sess1" is the identity. -/
theorem claim_C9_witness :
    systemFirstAndUnique ⟨[systemMessage promptFix]⟩ ∧
    getOrCreateSession promptFix uuidFresh (some "sess1")
        (getOrCreateSession promptFix uuidFresh (some "sess1") []).2 =
      ("sess1", (getOrCreateSession promptFix uuidFresh (some "sess1") []).2) := by
  have hr : ReachableStore (getOrCreateSession promptFix uuidFresh (some "sess1") []).2 :=
    ReachableStore.create promptFix uuidFresh (some "sess1") ReachableStore.init
  have h := claim_C9 hr
  refine ⟨?_, ?_⟩
  · exact h.1 "sess1" ⟨[systemMessage promptFix]⟩ (by decide)
  · exact h.2.1 promptFix uuidFresh "sess1" (by decide) (by decide)

/-! ## C10: `_list_events` date-range override -/

/-- C10 counterexample: on a Wednesday at 12:34:56, `_list_events` queries
the provider with a range starting Monday at 12:34:56 — not Monday 00:00
as the claim states (the subtraction of whole days keeps `now`'s time of
day).  The supplied `start_date`/`end_date` of 2030 are indeed ignored. -/
theorem claim_C10_counterexample :
    (listEventsHandler envBookingsEmpty nowWed argsListJane).2 =
      some { email := "jane@example.com",
             start_date := { epochDay := 4, secOfDay := 45296 },
             end_date := { epochDay := 10, secOfDay := 86399 },
             status := none } ∧
    ¬ (listEventsHandler envBookingsEmpty nowWed argsListJane).2.map
        (fun q => q.start_date.secOfDay) = some 0 := by
  exact ⟨rfl, by decide⟩

/-- C10 (amended): for every `_list_events` call with a truthy email, the
provider query covers Monday of the current week **at the current time of
day** (today minus `weekday()` days) through Sunday of that week at
23:59:59, and the supplied `start_date`/`end_date` arguments are accepted
but never used. -/
theorem claim_C10 (env : ListEventsEnv) (now : PyDT) (args : ListEventsArgs)
    (hemail : optStrTruthy args.email = true) :
    (∃ q, (listEventsHandler env now args).2 = some q ∧
      q.start_date = { epochDay := now.epochDay - (now.weekday : Int),
                       secOfDay := now.secOfDay } ∧
      q.end_date = { epochDay := now.epochDay - (now.weekday : Int) + 6,
                     secOfDay := 86399 } ∧
      q.email = args.email.getD "" ∧ q.status = args.status) ∧
    (∀ sd ed, listEventsHandler env now
        { args with start_date := sd, end_date := ed } =
      listEventsHandler env now args) := by
  constructor
  · refine ⟨{ email := args.email.getD "",
              start_date := { epochDay := now.epochDay - (now.weekday : Int),
                              secOfDay := now.secOfDay },
              end_date := { epochDay := now.epochDay - (now.weekday : Int) + 6,
                            secOfDay := 86399 },
              status := args.status }, ?_, rfl, rfl, rfl, rfl⟩
    unfold listEventsHandler
    simp only [hemail, Bool.not_true, Bool.false_eq_true, if_false]
    split <;> rfl
  · intro sd ed
    rfl

/-- C10 witness: the amended range property evaluated on the Wednesday
fixture. -/
theorem claim_C10_witness :
    (∃ q, (listEventsHandler envBookingsEmpty nowWed argsListJane).2 = some q ∧
      q.start_date = { epochDay := 4, secOfDay := 45296 } ∧
      q.end_date = { epochDay := 10, secOfDay := 86399 } ∧
      q.email = "jane@example.com" ∧ q.status = none) := by
  have h := (claim_C10 envBookingsEmpty nowWed argsListJane (by decide)).1
  simpa [nowWed, PyDT.weekday, argsListJane] using h

/-! ## C8: dispatch-loop error containment -/

theorem processAux_messages (env : DispatchEnv) :
    ∀ (calls : List FunctionCall) (results : List (String × DispatchOutcome))
      (history : ChatHistory),
      (processFunctionCallsAux env calls results history).2.messages =
        history.messages ++ calls.map (functionTurn env) := by
  intro calls
  induction calls with
  | nil => intro results history; simp [processFunctionCallsAux]
  | cons c rest ih =>
    intro results history
    unfold processFunctionCallsAux
    cases h : dispatchFunction env c.name c.arguments with
    | ok r =>
      simp only [ih, ChatHistory.add_message, List.map_cons, functionTurn, h]
      simp
    | error e =>
      simp only [ih, ChatHistory.add_message, List.map_cons, functionTurn, h]
      simp

theorem hasKey_upsert_self (d : List (String × α)) (k : String) (v : α) :
    hasKey (dictUpsert d k v) k = true := by
  unfold dictUpsert hasKey
  cases h : d.any (fun p => p.1 == k)
  · simp
  · simp only [if_true]
    rcases List.any_eq_true.mp h with ⟨p, hp, hpk⟩
    refine List.any_eq_true.mpr ⟨(k, v), List.mem_map.mpr ⟨p, hp, ?_⟩, by simp⟩
    simp [hpk]

theorem hasKey_upsert_mono (d : List (String × α)) (k k' : String) (v : α)
    (h : hasKey d k' = true) : hasKey (dictUpsert d k v) k' = true := by
  unfold dictUpsert hasKey
  unfold hasKey at h
  rcases List.any_eq_true.mp h with ⟨p, hp, hpk⟩
  cases hany : d.any (fun p => p.1 == k)
  · simp only [Bool.false_eq_true, if_false]
    exact List.any_eq_true.mpr ⟨p, List.mem_append_left _ hp, hpk⟩
  · simp only [if_true]
    refine List.any_eq_true.mpr ⟨if p.1 == k then (k, v) else p,
      List.mem_map.mpr ⟨p, hp, rfl⟩, ?_⟩
    cases hpk2 : p.1 == k
    · simpa [hpk2] using hpk
    · have : p.1 = k := by simpa using hpk2
      have : k = k' := by
        rw [← this]
        simpa using hpk
      simp [hpk2, this]

theorem processAux_hasKey_mono (env : DispatchEnv) :
    ∀ (calls : List FunctionCall) (results : List (String × DispatchOutcome))
      (history : ChatHistory) (n : String), hasKey results n = true →
      hasKey (processFunctionCallsAux env calls results history).1 n = true := by
  intro calls
  induction calls with
  | nil => intro results history n h; simpa [processFunctionCallsAux] using h
  | cons c rest ih =>
    intro results history n h
    unfold processFunctionCallsAux
    cases hd : dispatchFunction env c.name c.arguments with
    | ok r => exact ih _ _ n (hasKey_upsert_mono _ _ _ _ h)
    | error e => exact ih _ _ n (hasKey_upsert_mono _ _ _ _ h)

theorem processAux_hasKey (env : DispatchEnv) :
    ∀ (calls : List FunctionCall) (results : List (String × DispatchOutcome))
      (history : ChatHistory) (c : FunctionCall), c ∈ calls →
      hasKey (processFunctionCallsAux env calls results history).1 c.name = true := by
  intro calls
  induction calls with
  | nil => intro _ _ c hc; simp at hc
  | cons c0 rest ih =>
    intro results history c hc
    unfold processFunctionCallsAux
    rcases List.mem_cons.mp hc with rfl | hc
    · cases hd : dispatchFunction env c.name c.arguments with
      | ok r =>
        exact processAux_hasKey_mono env rest _ _ c.name (hasKey_upsert_self _ _ _)
      | error e =>
        exact processAux_hasKey_mono env rest _ _ c.name (hasKey_upsert_self _ _ _)
    · cases hd : dispatchFunction env c0.name c0.arguments with
      | ok r => exact ih _ _ c hc
      | error e => exact ih _ _ c hc

/-- C8: the dispatch loop is total (its Lean type carries no exception):
(i) the history gains exactly one FUNCTION-role turn per dispatched call,
in order — failed calls included, whose turn content is `"Error: " ++
str(e)` — so later calls in the same turn are still processed; (ii) every
dispatched call leaves an entry (result or in-band error) in the results
dict under its name; (iii) an unknown operation name raises
`ValidationError("Unknown function: ...")` inside the loop, which the loop
converts into the error turn rather than propagating. -/
theorem claim_C8 (env : DispatchEnv) (calls : List FunctionCall)
    (history : ChatHistory) :
    ((processFunctionCalls env calls history).2.messages =
      history.messages ++ calls.map (functionTurn env)) ∧
    (∀ c ∈ calls,
      hasKey (processFunctionCalls env calls history).1 c.name = true) ∧
    (∀ name args, ¬ name ∈ knownFunctionNames →
      dispatchFunction env name args =
        .error (.validationError ("Unknown function: " ++ name)) ∧
      functionTurn env { name := name, arguments := args } =
        { role := ChatRole.function,
          content := "Error: " ++ ("Unknown function: " ++ name),
          name := some name }) := by
  refine ⟨processAux_messages env calls [] history,
    fun c hc => processAux_hasKey env calls [] history c hc, ?_⟩
  intro name args hname
  have hdisp : dispatchFunction env name args =
      .error (.validationError ("Unknown function: " ++ name)) := by
    unfold dispatchFunction
    simp only [knownFunctionNames, List.mem_cons, List.not_mem_nil, or_false,
      not_or] at hname
    obtain ⟨h1, h2, h3, h4, h5, h6⟩ := hname
    simp [h1, h2, h3, h4, h5, h6]
  refine ⟨hdisp, ?_⟩
  unfold functionTurn
  rw [hdisp]
  simp [PyExc.msgStr]

/-- C8 witness: a turn containing an unknown tool name followed by a known
one — the unknown call yields an error turn and entry, and the known call
is still dispatched. -/
theorem claim_C8_witness :
    ((processFunctionCalls envDispatch callsWithUnknown ⟨[]⟩).2.messages =
      [] ++ callsWithUnknown.map (functionTurn envDispatch)) ∧
    hasKey (processFunctionCalls envDispatch callsWithUnknown ⟨[]⟩).1
      "bogus_tool" = true ∧
    dispatchFunction envDispatch "bogus_tool" [] =
      .error (.validationError ("Unknown function: " ++ "bogus_tool")) := by
  have h := claim_C8 envDispatch callsWithUnknown ⟨[]⟩
  refine ⟨h.1, ?_, (h.2.2 "bogus_tool" [] (by decide)).1⟩
  exact h.2.1 { name := "bogus_tool" } (by decide)

/-! ## C5: response session id -/

theorem getOrCreate_fst_aux (prompt sid2 : String) (st : SessionStore) :
    (match lookupSession st sid2 with
      | some _ => (sid2, st)
      | none =>
        (sid2, st ++ [(sid2, (⟨[systemMessage prompt]⟩ : ChatHistory))])).1 =
      sid2 := by
  split <;> rfl

theorem getOrCreate_fst (prompt freshId : String) (sid : Option String)
    (st : SessionStore) :
    (getOrCreateSession prompt freshId sid st).1 =
      (match sid with
        | none => freshId
        | some s => if s == "" then freshId else s) := by
  exact getOrCreate_fst_aux prompt _ st

/-- C5 counterexample: with `session_id` omitted, the conversation turns
are recorded under the freshly generated UUID, but the endpoint's
response carries the literal `"new_session"` — there is even no session
stored under that identifier.  (`process_message` never returns the
generated id to the router; line 65 falls back to the constant.) -/
theorem claim_C5_counterexample :
    respSessionId none = "new_session" ∧
    (processMessageStore promptFix uuidFresh none userHi asstHello [] []).1 =
      uuidFresh ∧
    lookupSession
      (processMessageStore promptFix uuidFresh none userHi asstHello [] []).2
      "new_session" = none ∧
    ¬ uuidFresh = "new_session" ∧
    (baselineResponse { message := "hi" }
      { content := "hello", function_calls := none,
        function_results := none }).session_id = "new_session" := by
  refine ⟨rfl, by decide, by decide, by decide, rfl⟩

/-- C5 (amended): when the request carries a non-empty `session_id`, the
response echoes it and it is the identifier the turns were recorded
under; when `session_id` is absent, the turns are recorded under the
freshly generated identifier while the response's `session_id` is the
constant `"new_session"` (the generated identifier is not surfaced). -/
theorem claim_C5 (prompt freshId : String) (sid : Option String)
    (u a : ChatMessage) (ft : List ChatMessage) (st : SessionStore) :
    (∀ s, sid = some s → ¬ s = "" →
      respSessionId sid = s ∧
      (processMessageStore prompt freshId sid u a ft st).1 = s) ∧
    (sid = none →
      (processMessageStore prompt freshId sid u a ft st).1 = freshId ∧
      respSessionId sid = "new_session") := by
  constructor
  · rintro s rfl hs
    have hbeq : (s == "") = false := by simp [hs]
    constructor
    · simp [respSessionId, hbeq]
    · show (getOrCreateSession prompt freshId (some s) st).1 = s
      rw [getOrCreate_fst]
      simp [hbeq]
  · rintro rfl
    constructor
    · show (getOrCreateSession prompt freshId none st).1 = freshId
      rw [getOrCreate_fst]
    · rfl

/-- C5 witness: the amended statement evaluated with a provided session id
and with an omitted one. -/
theorem claim_C5_witness :
    (respSessionId (some "sess1") = "sess1" ∧
      (processMessageStore promptFix uuidFresh (some "sess1") userHi asstHello
        [] []).1 = "sess1") ∧
    ((processMessageStore promptFix uuidFresh none userHi asstHello [] []).1 =
        uuidFresh ∧
      respSessionId none = "new_session") := by
  exact ⟨(claim_C5 promptFix uuidFresh (some "sess1") userHi asstHello [] []).1
      "sess1" rfl (by decide),
    (claim_C5 promptFix uuidFresh none userHi asstHello [] []).2 rfl⟩

/-! ## C6: alternative-slots fallback -/

/-- C6: whenever `_get_available_slots` returns successfully with zero
slots (the primary query, a 7-day window anchored at the requested date,
found nothing), the handler also queried the secondary 14-day window
starting the day after the requested date, and the returned
`alternative_slots` list is the first at-most-10 entries of that
secondary query's result. -/
theorem claim_C6 (env : SlotsEnv) (args : SlotsArgs) (payload : SlotsPayload)
    (hok : (getAvailableSlotsHandler env args).1 = .ok payload)
    (hempty : payload.slots = []) :
    ∃ (etid : Int) (d : Day) (alts : List AvailableSlot),
      env.strptime (args.date.getD "") = .ok d ∧
      env.get_available_slots etid d (d + 7)
        (some (args.timezone.getD "America/Los_Angeles")) = .ok [] ∧
      env.get_available_slots etid (d + 1) (d + 1 + 14) none = .ok alts ∧
      (getAvailableSlotsHandler env args).2 =
        [(etid, d, d + 7, some (args.timezone.getD "America/Los_Angeles")),
         (etid, d + 1, d + 1 + 14, none)] ∧
      payload.alternative_slots = some ((alts.take 10).map slotToDict) ∧
      ((alts.take 10).map slotToDict).length ≤ 10 := by
  cases harg : optStrTruthy args.date with
  | false => simp [getAvailableSlotsHandler, harg] at hok
  | true =>
    cases hsel : slotsSelectedEtid env args with
    | error e => simp [getAvailableSlotsHandler, harg, hsel] at hok
    | ok etid =>
      cases hparse : env.strptime (args.date.getD "") with
      | error e => simp [getAvailableSlotsHandler, harg, hsel, hparse] at hok
      | ok d =>
        cases hq1 : env.get_available_slots etid d (d + 7)
            (some (args.timezone.getD "America/Los_Angeles")) with
        | error e =>
          simp [getAvailableSlotsHandler, harg, hsel, hparse, hq1] at hok
        | ok slots =>
          cases hsl : slots.isEmpty with
          | false =>
            cases hets : env.get_event_types with
            | error e =>
              simp [getAvailableSlotsHandler, harg, hsel, hparse, hq1, hsl,
                hets] at hok
            | ok ets =>
              have hpl : payload =
                  { slots := slots.map slotToDict, event_type_id := etid,
                    event_type_name := eventTypeNameFor ets etid } := by
                have := hok
                simp [getAvailableSlotsHandler, harg, hsel, hparse, hq1, hsl,
                  hets] at this
                exact this.symm
              rw [hpl] at hempty
              simp at hempty
              rw [hempty] at hsl
              simp at hsl
          | true =>
            have hslots : slots = [] := by
              simpa using hsl
            cases hq2 : env.get_available_slots etid (d + 1) (d + 1 + 14) none with
            | error e =>
              simp [getAvailableSlotsHandler, harg, hsel, hparse, hq1, hsl,
                hq2] at hok
            | ok alts =>
              cases hets : env.get_event_types with
              | error e =>
                simp [getAvailableSlotsHandler, harg, hsel, hparse, hq1, hsl,
                  hq2, hets] at hok
              | ok ets =>
                refine ⟨etid, d, alts, rfl, ?_, hq2, ?_, ?_, ?_⟩
                · rw [← hslots]
                  exact hq1
                · simp [getAvailableSlotsHandler, harg, hsel, hparse, hq1, hsl,
                    hq2, hets]
                · have hpl : payload =
                      { slots := [],
                        message := some ("No available slots found for " ++
                          eventTypeNameFor ets etid ++ " on " ++
                          args.date.getD "" ++ "."),
                        alternative_slots :=
                          some ((alts.map slotToDict).take 10),
                        event_type_id := etid,
                        event_type_name := eventTypeNameFor ets etid } := by
                    have := hok
                    simp [getAvailableSlotsHandler, harg, hsel, hparse, hq1,
                      hsl, hq2, hets] at this
                    exact this.symm
                  rw [hpl]
                  simp [List.map_take]
                · rw [List.length_map, List.length_take]
                  exact Nat.min_le_left _ _

/-- C6 witness: the empty-primary fixture — twelve secondary slots exist,
exactly ten are surfaced as `alternative_slots`, and both queries (7-day
primary, 14-day secondary starting the day after) were issued. -/
theorem claim_C6_witness :
    ∃ (etid : Int) (d : Day) (alts : List AvailableSlot),
      envEmptyPrimary.strptime (argsMarch14.date.getD "") = .ok d ∧
      envEmptyPrimary.get_available_slots etid d (d + 7)
        (some (argsMarch14.timezone.getD "America/Los_Angeles")) = .ok [] ∧
      envEmptyPrimary.get_available_slots etid (d + 1) (d + 1 + 14) none =
        .ok alts ∧
      (getAvailableSlotsHandler envEmptyPrimary argsMarch14).2 =
        [(etid, d, d + 7, some (argsMarch14.timezone.getD "America/Los_Angeles")),
         (etid, d + 1, d + 1 + 14, none)] ∧
      payloadAlt10.alternative_slots = some ((alts.take 10).map slotToDict) ∧
      ((alts.take 10).map slotToDict).length ≤ 10 := by
  exact claim_C6 envEmptyPrimary argsMarch14 payloadAlt10 (by rfl) (by rfl)

/-! ## C7: default event-type selection -/

theorem insertByKey_head (key : EventType → Nat) (x : EventType) :
    ∀ acc : List EventType,
      (insertByKey key x acc).head? =
        some (match acc.head? with
          | none => x
          | some y => if key y ≤ key x then y else x) := by
  intro acc
  cases acc with
  | nil => rfl
  | cons y ys =>
    by_cases h : key y ≤ key x
    · simp [insertByKey, h]
    · simp [insertByKey, h]

theorem combineMinBy_none_right (key : EventType → Nat) :
    ∀ o : Option EventType, combineMinBy key o none = o := by
  intro o
  cases o <;> rfl

theorem foldl_insert_head (key : EventType → Nat) :
    ∀ (l acc : List EventType),
      (l.foldl (fun a x => insertByKey key x a) acc).head? =
        combineMinBy key acc.head? (firstMinBy key l) := by
  intro l
  induction l with
  | nil =>
    intro acc
    simp [firstMinBy, combineMinBy_none_right]
  | cons x xs ih =>
    intro acc
    simp only [List.foldl_cons]
    rw [ih (insertByKey key x acc), insertByKey_head]
    cases hacc : acc.head? with
    | none =>
      cases hxs : firstMinBy key xs with
      | none => simp [firstMinBy, hxs, combineMinBy]
      | some m => simp only [firstMinBy, hxs, combineMinBy]
    | some y =>
      cases hxs : firstMinBy key xs with
      | none =>
        simp only [firstMinBy, hxs, combineMinBy, combineMinBy_none_right]
        by_cases h1 : key y ≤ key x <;> by_cases h4 : key x < key y <;>
          simp [h1, h4] <;> omega
      | some m =>
        simp only [firstMinBy, hxs, combineMinBy]
        by_cases h1 : key y ≤ key x <;> by_cases h2 : key m < key x <;>
          by_cases h3 : key m < key y <;> by_cases h4 : key x < key y <;>
            simp [combineMinBy, h1, h2, h3, h4] <;> omega

theorem sortByKey_head (key : EventType → Nat) (l : List EventType) :
    (sortByKey key l).head? = firstMinBy key l := by
  unfold sortByKey
  rw [foldl_insert_head]
  rfl

theorem firstMinBy_eq_none (key : EventType → Nat) :
    ∀ l : List EventType, firstMinBy key l = none ↔ l = [] := by
  intro l
  cases l with
  | nil => simp [firstMinBy]
  | cons x xs =>
    constructor
    · intro h
      exfalso
      cases hxs : firstMinBy key xs with
      | none => simp [firstMinBy, hxs] at h
      | some m' =>
        simp only [firstMinBy, hxs] at h
        by_cases hlt : key m' < key x
        · rw [if_pos hlt] at h
          cases h
        · rw [if_neg hlt] at h
          cases h
    · intro h
      cases h

theorem firstMinBy_mem (key : EventType → Nat) :
    ∀ (l : List EventType) (m : EventType), firstMinBy key l = some m → m ∈ l := by
  intro l
  induction l with
  | nil => intro m h; simp [firstMinBy] at h
  | cons x xs ih =>
    intro m h
    cases hxs : firstMinBy key xs with
    | none =>
      simp only [firstMinBy, hxs] at h
      injection h with h
      rw [← h]
      exact List.mem_cons_self x xs
    | some m' =>
      simp only [firstMinBy, hxs] at h
      by_cases hlt : key m' < key x
      · rw [if_pos hlt] at h
        injection h with h
        rw [← h]
        exact List.mem_cons_of_mem x (ih m' hxs)
      · rw [if_neg hlt] at h
        injection h with h
        rw [← h]
        exact List.mem_cons_self x xs

theorem firstMinBy_le (key : EventType → Nat) :
    ∀ (l : List EventType) (m : EventType), firstMinBy key l = some m →
      ∀ x ∈ l, key m ≤ key x := by
  intro l
  induction l with
  | nil => intro m h; simp [firstMinBy] at h
  | cons x xs ih =>
    intro m h z hz
    cases hxs : firstMinBy key xs with
    | none =>
      have hnil : xs = [] := (firstMinBy_eq_none key xs).mp hxs
      simp only [firstMinBy, hxs] at h
      injection h with h
      subst hnil
      simp at hz
      rw [← h, hz]
    | some m' =>
      simp only [firstMinBy, hxs] at h
      rcases List.mem_cons.mp hz with hzx | hz
      · rw [hzx]
        by_cases hlt : key m' < key x
        · rw [if_pos hlt] at h
          injection h with h
          rw [← h]
          omega
        · rw [if_neg hlt] at h
          injection h with h
          rw [← h]
      · by_cases hlt : key m' < key x
        · rw [if_pos hlt] at h
          injection h with h
          rw [← h]
          exact ih m' hxs z hz
        · rw [if_neg hlt] at h
          injection h with h
          have h2 := ih m' hxs z hz
          rw [← h]
          omega

theorem firstMinBy_first (key : EventType → Nat) :
    ∀ (l : List EventType) (m : EventType), firstMinBy key l = some m →
      l.find? (fun x => key x == key m) = some m := by
  intro l
  induction l with
  | nil => intro m h; simp [firstMinBy] at h
  | cons x xs ih =>
    intro m h
    cases hxs : firstMinBy key xs with
    | none =>
      have hnil : xs = [] := (firstMinBy_eq_none key xs).mp hxs
      simp only [firstMinBy, hxs] at h
      injection h with h
      subst hnil
      rw [← h]
      simp [List.find?]
    | some m' =>
      simp only [firstMinBy, hxs] at h
      by_cases hlt : key m' < key x
      · rw [if_pos hlt] at h
        injection h with h
        subst h
        rw [List.find?_cons_of_neg _ (by simp; omega)]
        exact ih _ hxs
      · rw [if_neg hlt] at h
        injection h with h
        subst h
        rw [List.find?_cons_of_pos _ (by simp)]

theorem closestEventType_nil (d : Int) : closestEventType [] d = none := rfl

/-- C7: the characterization of default event-type selection, proved of
the handlers' shared algorithm and of both handlers.
(i) On a nonempty list, `closestEventType` yields a member of the list;
it is the first exact-duration match when one exists; otherwise it
minimizes `abs(length - duration)` and is the first minimizer in provider
listing order.
(ii) `_get_available_slots` with omitted `event_type_id` uses exactly this
selection on its requested duration (default 30).
(iii) `_book_event` with omitted `event_type_id` uses exactly this
selection on its computed duration.
(iv) Determinism across the two handlers: identical event-type lists and
requested durations yield the same selected id. -/
theorem claim_C7 :
    (∀ (ets : List EventType) (d : Int), ¬ ets = [] →
      ∃ et, closestEventType ets d = some et ∧ et ∈ ets ∧
        (∀ e, ets.find? (fun x => x.length == d) = some e → et = e) ∧
        (ets.find? (fun x => x.length == d) = none →
          (∀ x ∈ ets, durationKey d et ≤ durationKey d x) ∧
          ets.find? (fun x => durationKey d x == durationKey d et) = some et)) ∧
    (∀ (env : SlotsEnv) (args : SlotsArgs) (ets : List EventType) (et : EventType),
      optIntTruthy args.event_type_id = false →
      env.get_event_types = .ok ets →
      closestEventType ets (args.duration.getD 30) = some et →
      slotsSelectedEtid env args = .ok et.id) ∧
    (∀ (env : BookEnv) (args : BookArgsIn) (ets : List EventType)
      (et : EventType) (dm : Int),
      optIntTruthy args.event_type_id = false →
      bookDurationMinutes env args = .ok dm →
      env.get_event_types = .ok ets →
      closestEventType ets dm = some et →
      bookSelectedEtid env args = .ok et.id) ∧
    (∀ (envS : SlotsEnv) (argsS : SlotsArgs) (envB : BookEnv)
      (argsB : BookArgsIn) (ets : List EventType) (i j : Int),
      optIntTruthy argsS.event_type_id = false →
      optIntTruthy argsB.event_type_id = false →
      envS.get_event_types = .ok ets →
      envB.get_event_types = .ok ets →
      bookDurationMinutes envB argsB = .ok (argsS.duration.getD 30) →
      slotsSelectedEtid envS argsS = .ok i →
      bookSelectedEtid envB argsB = .ok j →
      i = j) := by
  have hmain : ∀ (ets : List EventType) (d : Int), ¬ ets = [] →
      ∃ et, closestEventType ets d = some et ∧ et ∈ ets ∧
        (∀ e, ets.find? (fun x => x.length == d) = some e → et = e) ∧
        (ets.find? (fun x => x.length == d) = none →
          (∀ x ∈ ets, durationKey d et ≤ durationKey d x) ∧
          ets.find? (fun x => durationKey d x == durationKey d et) = some et) := by
    intro ets d hne
    cases hfind : ets.find? (fun x => x.length == d) with
    | some e =>
      refine ⟨e, ?_, List.mem_of_find?_eq_some hfind, ?_, ?_⟩
      · unfold closestEventType
        rw [hfind]
      · intro e' he'
        exact Option.some_inj.mp he'
      · intro hcontra
        simp at hcontra
    | none =>
      cases hm : firstMinBy (durationKey d) ets with
      | none => exact absurd ((firstMinBy_eq_none _ ets).mp hm) hne
      | some m =>
        refine ⟨m, ?_, firstMinBy_mem _ ets m hm, ?_, ?_⟩
        · unfold closestEventType
          rw [hfind, sortByKey_head, hm]
        · intro e' he'
          simp at he'
        · intro _
          exact ⟨firstMinBy_le _ ets m hm, firstMinBy_first _ ets m hm⟩
  have hslots : ∀ (env : SlotsEnv) (args : SlotsArgs) (ets : List EventType)
      (et : EventType),
      optIntTruthy args.event_type_id = false →
      env.get_event_types = .ok ets →
      closestEventType ets (args.duration.getD 30) = some et →
      slotsSelectedEtid env args = .ok et.id := by
    intro env args ets et htr hets hcl
    unfold slotsSelectedEtid
    rw [htr, hets]
    cases ets with
    | nil => rw [closestEventType_nil] at hcl; cases hcl
    | cons e0 rest => simp [hcl]
  have hbook : ∀ (env : BookEnv) (args : BookArgsIn) (ets : List EventType)
      (et : EventType) (dm : Int),
      optIntTruthy args.event_type_id = false →
      bookDurationMinutes env args = .ok dm →
      env.get_event_types = .ok ets →
      closestEventType ets dm = some et →
      bookSelectedEtid env args = .ok et.id := by
    intro env args ets et dm htr hdm hets hcl
    unfold bookSelectedEtid
    rw [htr, hdm, hets]
    cases ets with
    | nil => rw [closestEventType_nil] at hcl; cases hcl
    | cons e0 rest => simp [hcl]
  refine ⟨hmain, hslots, hbook, ?_⟩
  intro envS argsS envB argsB ets i j htrS htrB hetsS hetsB hdm hi hj
  cases hets0 : ets with
  | nil =>
    rw [hets0] at hetsS
    unfold slotsSelectedEtid at hi
    rw [htrS, hetsS] at hi
    cases hi
  | cons e0 rest =>
    have hne : ¬ ets = [] := by rw [hets0]; simp
    obtain ⟨et, hcl, -, -, -⟩ := hmain ets (argsS.duration.getD 30) hne
    have hi2 := hslots envS argsS ets et htrS hetsS hcl
    have hj2 := hbook envB argsB ets et (argsS.duration.getD 30) htrB hdm hetsB hcl
    rw [hi] at hi2
    rw [hj] at hj2
    have h1 : i = et.id := by simpa using hi2
    have h2 : j = et.id := by simpa using hj2
    rw [h1, h2]

/-- C7 witness: on an event-type list `[20min, 40min (id 2), 40min (id 3)]`
with requested duration 45 there is no exact match; the tie between the
two 40-minute types is broken by listing order, selecting id 2 — in the
characterization and in both handlers' selection. -/
theorem claim_C7_witness :
    (∃ et, closestEventType etsTie 45 = some et ∧ et ∈ etsTie ∧
      (∀ e, etsTie.find? (fun x => x.length == 45) = some e → et = e) ∧
      (etsTie.find? (fun x => x.length == 45) = none →
        (∀ x ∈ etsTie, durationKey 45 et ≤ durationKey 45 x) ∧
        etsTie.find? (fun x => durationKey 45 x == durationKey 45 et) =
          some et)) ∧
    slotsSelectedEtid envSelTie argsDur45 = .ok 2 ∧
    bookSelectedEtid envBookTie argsBook45 = .ok 2 := by
  refine ⟨claim_C7.1 etsTie 45 (by decide), ?_, ?_⟩
  · exact claim_C7.2.1 envSelTie argsDur45 etsTie
      { id := 2, slug := "", title := "Mid A", description := none,
        length := 40, hidden := false } (by rfl) (by rfl) (by rfl)
  · exact claim_C7.2.2.1 envBookTie argsBook45 etsTie
      { id := 2, slug := "", title := "Mid A", description := none,
        length := 40, hidden := false } 45 (by rfl) (by rfl) (by rfl) (by rfl)

/-! ## Router lemmas shared by C1-C4 -/

theorem bind_ok_elim {α β : Type} (x : Except PyExc α) (f : α → Except PyExc β)
    (b : β) (h : x.bind f = .ok b) : ∃ a, x = .ok a ∧ f a = .ok b := by
  cases x with
  | error e => simp [Except.bind] at h
  | ok a => exact ⟨a, rfl, by simpa [Except.bind] using h⟩

theorem echoedCall_some_calls (resp : ServiceChatResponse) (name : String)
    (r : FuncResult) (h : echoedCall resp = some (name, r)) :
    ∃ c rest, resp.function_calls = some (c :: rest) ∧ c.name = name := by
  unfold echoedCall at h
  cases hfr : resp.function_results with
  | none => rw [hfr] at h; cases h
  | some results =>
    rw [hfr] at h
    have h0 : (if results.isEmpty = true then none
        else match resp.function_calls with
          | some (c :: _) =>
            match (results.find? (fun p => p.1 == c.name)).map
                (fun p => p.2) with
            | some r0 => some (c.name, r0)
            | none => none
          | _ => none) = some (name, r) := h
    by_cases hre : results.isEmpty = true
    · rw [if_pos hre] at h0
      cases h0
    · rw [if_neg hre] at h0
      cases hfc : resp.function_calls with
      | none =>
        rw [hfc] at h0
        simp at h0
      | some l =>
        cases l with
        | nil =>
          rw [hfc] at h0
          simp at h0
        | cons c rest =>
          rw [hfc] at h0
          have h2 : (match (results.find? (fun p => p.1 == c.name)).map
              (fun p => p.2) with
            | some r0 => some (c.name, r0)
            | none => none) = some (name, r) := h0
          cases hres : (results.find? (fun p => p.1 == c.name)).map
              (fun p => p.2) with
          | none => rw [hres] at h2; cases h2
          | some r' =>
            rw [hres] at h2
            injection h2 with h2
            cases h2
            exact ⟨c, rest, rfl, rfl⟩

theorem sendMessageBody_no_echo (env : AutoBookEnv) (req : ChatRequest)
    (resp : ServiceChatResponse) (h : echoedCall resp = none) :
    sendMessageBody env req resp = (.ok (baselineResponse req resp), false) := by
  unfold sendMessageBody
  rw [h]

theorem sendMessageBody_echo (env : AutoBookEnv) (req : ChatRequest)
    (resp : ServiceChatResponse) (name : String) (r : FuncResult)
    (h : echoedCall resp = some (name, r)) :
    sendMessageBody env req resp =
      (if (name == "get_available_slots" && isBookingRequest req.message) = true
        then (autoBook env req.message (responseAfterEcho req resp) r, true)
        else (.ok (responseAfterEcho req resp), false)) := by
  unfold sendMessageBody
  rw [h]

theorem responseAfterEcho_no_echo (req : ChatRequest)
    (resp : ServiceChatResponse) (h : echoedCall resp = none) :
    responseAfterEcho req resp = baselineResponse req resp := by
  unfold responseAfterEcho
  rw [h]

theorem responseAfterEcho_echo (req : ChatRequest) (resp : ServiceChatResponse)
    (name : String) (r : FuncResult) (h : echoedCall resp = some (name, r)) :
    responseAfterEcho req resp =
      { baselineResponse req resp with response := r.toText } := by
  unfold responseAfterEcho
  rw [h]

theorem baseline_action_eq (req : ChatRequest) (resp : ServiceChatResponse) :
    (baselineResponse req resp).action_details =
      (resp.function_calls.getD []).head? := by
  unfold baselineResponse
  cases hfc : resp.function_calls with
  | none => simp
  | some l => cases l <;> simp

theorem autoBook_ok_cases (env : AutoBookEnv) (msg : String)
    (chat1 : ChatResponseOut) (r : FuncResult) (out : ChatResponseOut)
    (h : autoBook env msg chat1 r = .ok out) :
    out = chat1 ∨ ∃ nm d t uid,
      out = { chat1 with
              response := confirmText nm d t uid,
              requires_action := false,
              action_details := none } := by
  unfold autoBook at h
  cases hsf : r.slotsField with
  | none =>
    rw [hsf] at h
    injection h with h
    exact Or.inl h.symm
  | some slots =>
    rw [hsf] at h
    cases hse : slots.isEmpty with
    | true =>
      simp only [hse, if_true] at h
      injection h with h
      exact Or.inl h.symm
    | false =>
      simp only [hse, Bool.false_eq_true, if_false] at h
      cases hnm : env.nameMatch with
      | none =>
        rw [hnm] at h
        injection h with h
        exact Or.inl h.symm
      | some nm =>
        rw [hnm] at h
        cases hem : env.emailMatch with
        | none =>
          rw [hem] at h
          injection h with h
          exact Or.inl h.symm
        | some em =>
          rw [hem] at h
          cases het : r.eventTypeIdField with
          | none =>
            rw [het] at h
            injection h with h
            exact Or.inl h.symm
          | some etid =>
            rw [het] at h
            cases hz : etid == 0 with
            | true =>
              simp only [hz, if_true] at h
              injection h with h
              exact Or.inl h.symm
            | false =>
              simp only [hz, Bool.false_eq_true, if_false] at h
              obtain ⟨tdtt, hrt, h⟩ := bind_ok_elim _ _ _ h
              obtain ⟨otd, ott⟩ := tdtt
              cases otd with
              | none =>
                simp only [] at h
                injection h with h
                exact Or.inl h.symm
              | some td =>
                cases ott with
                | none =>
                  simp only [] at h
                  injection h with h
                  exact Or.inl h.symm
                | some tt =>
                  simp only [] at h
                  cases hg : td.truthy && !(tt == "") with
                  | false =>
                    simp only [hg, Bool.false_eq_true, if_false] at h
                    injection h with h
                    exact Or.inl h.symm
                  | true =>
                    simp only [hg, if_true] at h
                    cases hfs : findTargetSlot slots td tt with
                    | none =>
                      rw [hfs] at h
                      injection h with h
                      exact Or.inl h.symm
                    | some slot =>
                      rw [hfs] at h
                      obtain ⟨st, hst, h⟩ := bind_ok_elim _ _ _ h
                      obtain ⟨et2, het2, h⟩ := bind_ok_elim _ _ _ h
                      obtain ⟨bk, hbk, h⟩ := bind_ok_elim _ _ _ h
                      injection h with h
                      exact Or.inr ⟨nm, td.fstr, tt, bk.uid, h.symm⟩

/-! ## C1: auto-booking trigger condition -/

/-- C1: the auto-booking logic (the code at line 87) is reached iff the
echoed tool call is `get_available_slots` and the user message contains at
least one booking keyword as a case-insensitive substring; moreover,
whenever the message contains no booking keyword, the endpoint returns
exactly the echoed (non-auto-booked) response, untouched by any
auto-booking oracle. -/
theorem claim_C1 (env : AutoBookEnv) (req : ChatRequest)
    (resp : ServiceChatResponse) :
    ((sendMessage env req resp).2 = true ↔
      ((echoedCall resp).map Prod.fst = some "get_available_slots" ∧
        isBookingRequest req.message = true)) ∧
    (∀ m : String, isBookingRequest m = true ↔
      ∃ k ∈ booking_keywords, strContains (pyLower m) k = true) ∧
    ((∀ k ∈ booking_keywords, strContains (pyLower req.message) k = false) →
      sendMessage env req resp = (.ok (responseAfterEcho req resp), false)) := by
  have hsnd : ∀ (c : Bool) (x y : Except PyExc ChatResponseOut),
      (if c = true then (x, true) else (y, false)).2 = c := by
    intro c x y
    cases c <;> simp
  refine ⟨?_, ?_, ?_⟩
  · cases hec : echoedCall resp with
    | none =>
      rw [show (sendMessage env req resp).2 = (sendMessageBody env req resp).2
        from rfl, sendMessageBody_no_echo env req resp hec]
      simp
    | some pr =>
      obtain ⟨name, r⟩ := pr
      rw [show (sendMessage env req resp).2 = (sendMessageBody env req resp).2
        from rfl, sendMessageBody_echo env req resp name r hec, hsnd]
      simp only [Option.map_some', Option.some_inj]
      constructor
      · intro h
        obtain ⟨h1, h2⟩ := Bool.and_eq_true _ _ ▸ h
        exact ⟨by rw [eq_of_beq h1], h2⟩
      · rintro ⟨h1, h2⟩
        rw [Bool.and_eq_true]
        have h1' : name = "get_available_slots" := by simpa using h1
        exact ⟨by rw [h1']; rfl, h2⟩
  · intro m
    simp [isBookingRequest, List.any_eq_true]
  · intro hnone
    have hkw : isBookingRequest req.message = false := by
      cases hbool : isBookingRequest req.message with
      | false => rfl
      | true =>
        rcases List.any_eq_true.mp
          (by simpa [isBookingRequest] using hbool) with ⟨k, hk, hs⟩
        rw [hnone k hk] at hs
        cases hs
    cases hec : echoedCall resp with
    | none =>
      rw [show sendMessage env req resp =
          ((sendMessageBody env req resp).1.mapError routeExc,
            (sendMessageBody env req resp).2) from rfl,
        sendMessageBody_no_echo env req resp hec,
        responseAfterEcho_no_echo req resp hec]
      rfl
    | some pr =>
      obtain ⟨name, r⟩ := pr
      rw [show sendMessage env req resp =
          ((sendMessageBody env req resp).1.mapError routeExc,
            (sendMessageBody env req resp).2) from rfl,
        sendMessageBody_echo env req resp name r hec]
      rw [if_neg (by simp [hkw])]
      rfl

/-- C1 witness: the spec's own negative scenario — "What times are open
March 14th?" echoes a slots result but carries no booking keyword, so the
trigger is not reached and the plain slots listing is returned. -/
theorem claim_C1_witness :
    ((sendMessage envJane reqNoKeyword (respWith payloadMatch)).2 = false) ∧
    sendMessage envJane reqNoKeyword (respWith payloadMatch) =
      (.ok (responseAfterEcho reqNoKeyword (respWith payloadMatch)), false) := by
  have h := claim_C1 envJane reqNoKeyword (respWith payloadMatch)
  have h3 := h.2.2 (by decide)
  refine ⟨?_, h3⟩
  rw [h3]

/-! ## C2: slot matching and the no-match abort -/

/-- C2: given resolved targets and a nonempty slots list, the matcher
takes the first slot whose date equals the target date and whose start
string contains the target time; failing that, the first slot matching on
date alone; and when no slot matches even by date, the slot search yields
nothing and the endpoint returns the plain echoed slots listing with
`requires_action` still true. -/
theorem claim_C2 :
    (∀ (td : JVal) (tt : String) (slots : List SlotDict),
      (∀ s, slots.find? (fun x => td.eqStr x.date && strContains x.start tt) =
          some s → findTargetSlot slots td tt = some s) ∧
      (slots.find? (fun x => td.eqStr x.date && strContains x.start tt) = none →
        findTargetSlot slots td tt = slots.find? (fun x => td.eqStr x.date)) ∧
      ((∀ s ∈ slots, td.eqStr s.date = false) →
        findTargetSlot slots td tt = none)) ∧
    (∀ (env : AutoBookEnv) (req : ChatRequest) (resp : ServiceChatResponse)
      (r : FuncResult) (slots : List SlotDict) (td : JVal) (tt : String),
      echoedCall resp = some ("get_available_slots", r) →
      isBookingRequest req.message = true →
      r.slotsField = some slots →
      slots.isEmpty = false →
      env.nameMatch.isSome = true →
      env.emailMatch.isSome = true →
      (∃ etid, r.eventTypeIdField = some etid ∧ (etid == 0) = false) →
      resolveTargets env req.message = .ok (some td, some tt) →
      td.truthy = true → (tt == "") = false →
      findTargetSlot slots td tt = none →
      sendMessage env req resp = (.ok (responseAfterEcho req resp), true) ∧
      (responseAfterEcho req resp).requires_action = true ∧
      (responseAfterEcho req resp).response = r.toText) := by
  constructor
  · intro td tt slots
    refine ⟨?_, ?_, ?_⟩
    · intro s hs
      unfold findTargetSlot
      rw [hs]
    · intro hn
      unfold findTargetSlot
      rw [hn, head_filter_eq_find]
    · intro hall
      unfold findTargetSlot
      have h1 : slots.find?
          (fun x => td.eqStr x.date && strContains x.start tt) = none := by
        rw [List.find?_eq_none]
        intro x hx
        simp [hall x hx]
      have h2 : slots.find? (fun x => td.eqStr x.date) = none := by
        rw [List.find?_eq_none]
        intro x hx
        simp [hall x hx]
      rw [h1, head_filter_eq_find, h2]
  · intro env req resp r slots td tt hec hkw hsf hse hnm hem hetid hrt htd htt hfind
    obtain ⟨etid, hetv, hz⟩ := hetid
    have hguard : ("get_available_slots" == "get_available_slots" &&
        isBookingRequest req.message) = true := by
      simp [hkw]
    have hab : autoBook env req.message (responseAfterEcho req resp) r =
        .ok (responseAfterEcho req resp) := by
      unfold autoBook
      rw [hsf]
      simp only [hse, Bool.false_eq_true, if_false]
      obtain ⟨nm, hnm'⟩ := Option.isSome_iff_exists.mp hnm
      obtain ⟨em, hem'⟩ := Option.isSome_iff_exists.mp hem
      rw [hnm', hem', hetv]
      simp only [hz, Bool.false_eq_true, if_false]
      rw [hrt]
      have hcond : (td.truthy && !(tt == "")) = true := by
        simp [htd, htt]
      simp only [Except.bind, hcond, if_true]
      rw [hfind]
    have hbody := sendMessageBody_echo env req resp "get_available_slots" r hec
    rw [if_pos hguard] at hbody
    refine ⟨?_, ?_, ?_⟩
    · show ((sendMessageBody env req resp).1.mapError routeExc,
        (sendMessageBody env req resp).2) = _
      rw [hbody]
      simp [hab, Except.mapError]
    · obtain ⟨c, rest, hfc, hcn⟩ := echoedCall_some_calls resp _ r hec
      rw [responseAfterEcho_echo req resp _ r hec]
      show (baselineResponse req resp).requires_action = true
      unfold baselineResponse function_calls_truthy
      rw [hfc]
      simp
    · rw [responseAfterEcho_echo req resp _ r hec]

/-- C2 witness: the Jane Doe booking request against a slots list whose
only slot is on 2025-03-20 — no slot matches the resolved target date
2025-03-14, so the endpoint returns the plain slots listing with
`requires_action` true. -/
theorem claim_C2_witness :
    sendMessage envJane reqBookJane (respWith payloadOtherDate) =
      (.ok (responseAfterEcho reqBookJane (respWith payloadOtherDate)), true) ∧
    (responseAfterEcho reqBookJane (respWith payloadOtherDate)).requires_action =
      true ∧
    (responseAfterEcho reqBookJane (respWith payloadOtherDate)).response =
      (FuncResult.slotsResult payloadOtherDate).toText := by
  exact claim_C2.2 envJane reqBookJane (respWith payloadOtherDate)
    (FuncResult.slotsResult payloadOtherDate)
    payloadOtherDate.slots (JVal.jstr "2025-03-14") "14:30:00"
    (by rfl) (by rfl) (by rfl) (by rfl) (by rfl) (by rfl)
    ⟨7, by rfl, by rfl⟩ (by rfl) (by rfl) (by rfl) (by rfl)

/-! ## C3: exception propagation from the auto-booking block -/

/-- C3 counterexample: the structured extraction (legally) returns a
non-string `start_time`, so step 3's `start_time + ":00"` raises
`TypeError`; the claim says any step-2-to-4 exception degrades to the
plain tool result, but the endpoint has no local handler around the
auto-booking block — its outer handler re-raises the exception as a
request-level `AppException`. -/
theorem claim_C3_counterexample :
    sendMessage envBadLLM reqSchedule (respWith payloadMatch) =
      (Except.error (.appException
        "Error processing message: unsupported operand type(s) for +: 'int' and 'str'"),
       true) := by
  rfl

/-- C3 (amended): every exception raised inside the auto-booking block
propagates to the endpoint boundary: `ValidationError` and
`OpenAIAPIError` re-raise unchanged and any other exception (the final
booking-provider failure included) is re-raised as
`AppException("Error processing message: ...")`; no exception there
degrades to returning the un-auto-booked tool result. -/
theorem claim_C3 (env : AutoBookEnv) (req : ChatRequest)
    (resp : ServiceChatResponse) (name : String) (r : FuncResult) (e : PyExc)
    (hec : echoedCall resp = some (name, r))
    (hg : (name == "get_available_slots" && isBookingRequest req.message) = true)
    (herr : autoBook env req.message (responseAfterEcho req resp) r = .error e) :
    (sendMessage env req resp).1 = .error (routeExc e) ∧
    ∀ out, ¬ (sendMessage env req resp).1 = Except.ok out := by
  have hbody := sendMessageBody_echo env req resp name r hec
  rw [if_pos hg] at hbody
  have h1 : (sendMessage env req resp).1 = .error (routeExc e) := by
    show (sendMessageBody env req resp).1.mapError routeExc = _
    rw [hbody]
    simp [herr, Except.mapError]
  refine ⟨h1, ?_⟩
  intro out hcontra
  rw [h1] at hcontra
  cases hcontra

/-- C3 witness: the amended propagation applied to the bad-extraction
fixture — the `TypeError` surfaces as the wrapped request-level error. -/
theorem claim_C3_witness :
    (sendMessage envBadLLM reqSchedule (respWith payloadMatch)).1 =
      .error (routeExc (.typeError
        "unsupported operand type(s) for +: 'int' and 'str'")) ∧
    ∀ out, ¬ (sendMessage envBadLLM reqSchedule (respWith payloadMatch)).1 =
      Except.ok out := by
  exact claim_C3 envBadLLM reqSchedule (respWith payloadMatch)
    "get_available_slots" (FuncResult.slotsResult payloadMatch)
    (.typeError "unsupported operand type(s) for +: 'int' and 'str'")
    (by rfl) (by rfl) (by rfl)

/-! ## C4: response overrides and the requires_action / action_details law -/

/-- C4 counterexample: a successful auto-booking run — a tool call exists
(`function_calls` is a one-element list) yet `action_details` in the
response is `none`, contradicting "action_details echoes the first tool
call when one exists"; the response text and cleared flag confirm the
auto-booking override. -/
theorem claim_C4_counterexample :
    (sendMessage envJane reqBookJane (respWith payloadMatch)).1 =
      Except.ok { response := confirmText "Jane Doe" "2025-03-14" "14:30:00" "abc123",
                  session_id := "sess2", requires_action := false,
                  action_details := none } ∧
    (respWith payloadMatch).function_calls = some [fcGas] := by
  exact ⟨rfl, rfl⟩

/-- C4 (amended): on auto-booking success the response text is replaced by
the confirmation string and `requires_action` is cleared; in every
successful response, `requires_action` is true iff at least one tool call
was issued and auto-booking did not override the response, and
`action_details` echoes the first tool call when one exists **and the
response was not overridden** — on auto-booking success it is cleared to
`none`. -/
theorem claim_C4 (env : AutoBookEnv) (req : ChatRequest)
    (resp : ServiceChatResponse) (out : ChatResponseOut)
    (hok : (sendMessage env req resp).1 = Except.ok out) :
    (function_calls_truthy resp = false →
      out.requires_action = false ∧ out.action_details = none) ∧
    (function_calls_truthy resp = true →
      (out.requires_action = true ∧
        out.action_details = (resp.function_calls.getD []).head?) ∨
      (out.requires_action = false ∧ out.action_details = none ∧
        ∃ nm d t uid, out.response = confirmText nm d t uid)) := by
  have hbase : (sendMessageBody env req resp).1 = Except.ok out := by
    have h0 : (sendMessageBody env req resp).1.mapError routeExc =
        Except.ok out := hok
    cases hb : (sendMessageBody env req resp).1 with
    | error e => rw [hb] at h0; simp [Except.mapError] at h0
    | ok v => rw [hb] at h0; simpa [Except.mapError] using h0
  have hfields : (out.requires_action = function_calls_truthy resp ∧
      out.action_details = (resp.function_calls.getD []).head?) ∨
      (out.requires_action = false ∧ out.action_details = none ∧
        ∃ nm d t uid, out.response = confirmText nm d t uid) := by
    cases hec : echoedCall resp with
    | none =>
      rw [sendMessageBody_no_echo env req resp hec] at hbase
      have hout : baselineResponse req resp = out := by
        simpa using hbase
      left
      rw [← hout]
      exact ⟨rfl, baseline_action_eq req resp⟩
    | some pr =>
      obtain ⟨name, r⟩ := pr
      rw [sendMessageBody_echo env req resp name r hec] at hbase
      by_cases hg : (name == "get_available_slots" &&
          isBookingRequest req.message) = true
      · rw [if_pos hg] at hbase
        have hcases := autoBook_ok_cases env req.message
          (responseAfterEcho req resp) r out (by simpa using hbase)
        rcases hcases with hout | ⟨nm, d, t, uid, hout⟩
        · left
          rw [hout, responseAfterEcho_echo req resp name r hec]
          exact ⟨rfl, baseline_action_eq req resp⟩
        · right
          rw [hout]
          exact ⟨rfl, rfl, nm, d, t, uid, rfl⟩
      · rw [if_neg hg] at hbase
        have hout : responseAfterEcho req resp = out := by
          simpa using hbase
        left
        rw [← hout, responseAfterEcho_echo req resp name r hec]
        exact ⟨rfl, baseline_action_eq req resp⟩
  constructor
  · intro hfalse
    rcases hfields with ⟨h1, h2⟩ | ⟨h1, h2, _⟩
    · refine ⟨by rw [h1, hfalse], ?_⟩
      rw [h2]
      unfold function_calls_truthy at hfalse
      cases hfc : resp.function_calls with
      | none => simp
      | some l =>
        rw [hfc] at hfalse
        cases l with
        | nil => simp
        | cons c rest => simp at hfalse
    · exact ⟨h1, h2⟩
  · intro htrue
    rcases hfields with ⟨h1, h2⟩ | ⟨h1, h2, h3⟩
    · left
      exact ⟨by rw [h1, htrue], h2⟩
    · right
      exact ⟨h1, h2, h3⟩

/-- C4 witness: the amended law applied to the successful auto-booking
fixture — a tool call was issued, the response is overridden, and the
override branch (cleared flag, cleared details, confirmation text) holds
of the actual endpoint output `outJane`. -/
theorem claim_C4_witness :
    (outJane.requires_action = true ∧
      outJane.action_details =
        ((respWith payloadMatch).function_calls.getD []).head?) ∨
    (outJane.requires_action = false ∧ outJane.action_details = none ∧
      ∃ nm d t uid, outJane.response = confirmText nm d t uid) := by
  exact (claim_C4 envJane reqBookJane (respWith payloadMatch) outJane
    (by rfl)).2 (by rfl)

end CodeChallenge
